import Mathlib

/-!
Shallow embedding of the lost-and-found backend (Flask + SQLAlchemy) in Lean 4.

The embedding models the persistent store as an explicit record of tables,
each route handler as a pure function from a store and a request to a new
store plus an HTTP-style response, and the external media-upload collaborator
as a predetermined per-file outcome.  Timestamps are abstract ticks (`Nat`)
supplied by the caller as `now`.
-/

namespace LostFound

/-- Python truthiness of an optional string (`None` and `""` are falsy). -/
def strTruthy : Option String → Bool
  | none => false
  | some s => !s.isEmpty

/-- Python truthiness of an optional integer (`None` and `0` are falsy). -/
def intTruthy : Option Int → Bool
  | none => false
  | some n => n != 0

/-- Strip leading and trailing whitespace from a character list. -/
def stripChars (cs : List Char) : List Char :=
  ((cs.dropWhile Char.isWhitespace).reverse.dropWhile Char.isWhitespace).reverse

/-- Python `str.strip()` (whitespace only). -/
def pyStrip (s : String) : String := String.mk (stripChars s.data)

/-- Python `value.replace('\x00', '')`. -/
def removeNullBytes (s : String) : String :=
  String.mk (s.data.filter (fun c => c != '\x00'))

/-- Python `str.capitalize()`: first character uppercased, rest lowercased. -/
def pyCapitalize (s : String) : String :=
  match s.data with
  | [] => ""
  | c :: rest => String.mk (c.toUpper :: rest.map Char.toLower)

/-- `app/utils/validators.py` `sanitize_input`: falsy values returned as-is,
otherwise strip whitespace and remove null bytes. -/
def sanitize_input : Option String → Option String
  | none => none
  | some s => if s.isEmpty then some s else some (removeNullBytes (pyStrip s))

/-- `validators.validate_string_field`. -/
def validate_string_field (value : Option String) (field : String)
    (min_length max_length : Nat) (required : Bool) : Bool × Option String :=
  if required && !(strTruthy value) then
    (false, some (field ++ " is required"))
  else if strTruthy value && decide ((value.getD "").length > max_length) then
    (false, some (field ++ " must be less than " ++ toString max_length ++ " characters"))
  else if strTruthy value && decide ((value.getD "").length < min_length) then
    (false, some (field ++ " must be at least " ++ toString min_length ++ " characters long"))
  else (true, none)

/-- `validators.validate_integer` (the routes only use `min_value`). -/
def validate_integer (value : Option Int) (field : String)
    (min_value max_value : Option Int) (required : Bool) : Bool × Option String :=
  if required && value == none then
    (false, some (field ++ " is required"))
  else
    match value with
    | none => (true, none)
    | some n =>
      match min_value with
      | some m =>
        if n < m then (false, some (field ++ " must be at least " ++ toString m))
        else
          match max_value with
          | some mx =>
            if n > mx then (false, some (field ++ " must be at most " ++ toString mx))
            else (true, none)
          | none => (true, none)
      | none =>
        match max_value with
        | some mx =>
          if n > mx then (false, some (field ++ " must be at most " ++ toString mx))
          else (true, none)
        | none => (true, none)

/-- `validators.validate_enum`. -/
def validate_enum (value : Option String) (field : String)
    (allowed_values : List String) (required : Bool) : Bool × Option String :=
  if required && !(strTruthy value) then
    (false, some (field ++ " is required"))
  else if strTruthy value && !(allowed_values.contains (value.getD "")) then
    (false, some (field ++ " must be one of: " ++ String.intercalate ", " allowed_values))
  else (true, none)

/-- First character class of the URL regex `^https?://[^\s/$.?#].[^\s]*$`. -/
def urlBadFirst (c : Char) : Bool :=
  c.isWhitespace || c == '/' || c == '$' || c == '.' || c == '?' || c == '#'

/-- Body of the URL regex after the scheme. -/
def urlBodyOk (rest : List Char) : Bool :=
  match rest with
  | c1 :: c2 :: tail => !(urlBadFirst c1) && c2 != '\n' && tail.all (fun c => !c.isWhitespace)
  | _ => false

/-- The shape accepted by the regex in `validators.validate_url`. -/
def urlShapeOk (s : String) : Bool :=
  if s.startsWith "https://" then urlBodyOk (s.data.drop 8)
  else if s.startsWith "http://" then urlBodyOk (s.data.drop 7)
  else false

/-- `validators.validate_url`. -/
def validate_url (url : Option String) : Bool × Option String :=
  if !(strTruthy url) then (true, none)
  else if decide ((url.getD "").length > 500) then
    (false, some "URL must be less than 500 characters")
  else if !(urlShapeOk (url.getD "")) then
    (false, some "Invalid URL format")
  else (true, none)

/-- Gregorian leap year (as `datetime` uses). -/
def isLeap (y : Nat) : Bool := (y % 4 == 0 && y % 100 != 0) || y % 400 == 0

/-- Days in a month of a given year. -/
def daysInMonth (y m : Nat) : Nat :=
  if m == 2 then (if isLeap y then 29 else 28)
  else if [4, 6, 9, 11].contains m then 30
  else 31

/-- Numeric value of a decimal digit character, `none` otherwise. -/
def digitVal (c : Char) : Option Nat :=
  if c.isDigit then some (c.toNat - '0'.toNat) else none

/-- Parse a list of digit characters as a base-10 number. -/
def parseDigits (cs : List Char) : Option Nat :=
  cs.foldl (fun acc c => match acc, digitVal c with
    | some a, some d => some (a * 10 + d)
    | _, _ => none) (some 0)

/-- Whether the first ten characters are `\d{4}-\d{2}-\d{2}` (the Python
pattern is matched with `re.match`, so only a prefix match is required). -/
def dateShapePrefix (cs : List Char) : Bool :=
  match cs with
  | [y1, y2, y3, y4, d1, m1, m2, d2, dd1, dd2] =>
    [y1, y2, y3, y4].all Char.isDigit && d1 == '-' &&
      [m1, m2].all Char.isDigit && d2 == '-' && [dd1, dd2].all Char.isDigit
  | _ => false

/-- Whether `strptime(s, '%Y-%m-%d')` succeeds: exact ten-character shape and
a valid proleptic Gregorian calendar date with year at least 1. -/
def strptimeDateOk (s : String) : Bool :=
  let cs := s.data
  dateShapePrefix cs && cs.length == 10 &&
    (match parseDigits (cs.take 4), parseDigits (cs.drop 5 |>.take 2),
        parseDigits (cs.drop 8 |>.take 2) with
     | some y, some m, some d =>
       decide (1 ≤ y) && decide (1 ≤ m) && decide (m ≤ 12) &&
         decide (1 ≤ d) && decide (d ≤ daysInMonth y m)
     | _, _, _ => false)

/-- `validators.validate_date_format`. -/
def validate_date_format (date_string : Option String) : Bool × Option String :=
  if !(strTruthy date_string) then (true, none)
  else
    let s := date_string.getD ""
    if !(dateShapePrefix (s.data.take 10)) || decide (s.data.length < 10) then
      (false, some "Date must be in YYYY-MM-DD format")
    else if !(strptimeDateOk s) then (false, some "Invalid date")
    else (true, none)

/-! ## Data model (`app/models.py`) -/

/-- `models.User` (the fields the routes in scope read). -/
structure User where
  id : Nat
  name : String
  email : String
  role : String
deriving Repr, DecidableEq

/-- `models.LostItem`.  Status domain: pending, claimed, closed. -/
structure LostItem where
  id : Nat
  user_id : Nat
  title : String
  description : Option String
  category : Option String
  location_lost : Option String
  date_lost : Option String
  image_url : Option String
  status : String
  created_at : Nat
  updated_at : Nat
deriving Repr, DecidableEq

/-- `models.FoundItem`.  Status domain: available, claimed, closed. -/
structure FoundItem where
  id : Nat
  finder_id : Nat
  title : String
  description : Option String
  category : Option String
  location_found : Option String
  date_found : Option String
  image_url : Option String
  status : String
  created_at : Nat
  updated_at : Nat
deriving Repr, DecidableEq

/-- `models.ItemMedia`: a media attachment owned by a lost or found item. -/
structure ItemMedia where
  id : Nat
  item_id : Nat
  item_type : String
  media_type : String
  url : String
  preview_url : String
  public_id : Option String
  format : Option String
  is_primary : Bool
  created_at : Nat
deriving Repr, DecidableEq

/-- `models.Claim`: references exactly one item by id plus kind tag. -/
structure Claim where
  id : Nat
  item_id : Nat
  item_type : String
  claimer_id : Int
  status : String
  verification_details : Option String
  claimed_at : Nat
  created_at : Nat
  updated_at : Nat
deriving Repr, DecidableEq

/-- `ClaimMedia`: proof media owned by a claim.  The model class is absent
from `models.py`; the record is reconstructed from its construction sites in
`routes/claims.py` (claim_id, media_type, url, preview_url, public_id,
format, is_primary). -/
structure ClaimMedia where
  id : Nat
  claim_id : Nat
  media_type : String
  url : String
  preview_url : String
  public_id : Option String
  format : Option String
  is_primary : Bool
deriving Repr, DecidableEq

/-- The persistent store: one list per table plus a primary-key generator. -/
structure DB where
  users : List User
  lost_items : List LostItem
  found_items : List FoundItem
  item_media : List ItemMedia
  claims : List Claim
  claim_media : List ClaimMedia
  next_id : Nat
deriving Repr, DecidableEq

def DB.getUser (db : DB) (uid : Int) : Option User :=
  db.users.find? (fun u => (u.id : Int) == uid)

def DB.getLostItem (db : DB) (i : Nat) : Option LostItem :=
  db.lost_items.find? (fun it => it.id == i)

def DB.getFoundItem (db : DB) (i : Nat) : Option FoundItem :=
  db.found_items.find? (fun it => it.id == i)

def DB.getClaim (db : DB) (i : Nat) : Option Claim :=
  db.claims.find? (fun c => c.id == i)

/-- Media rows owned by a lost item (the `media` relationship). -/
def DB.lostMediaOf (db : DB) (i : Nat) : List ItemMedia :=
  db.item_media.filter (fun m => m.item_id == i && m.item_type == "lost")

/-- Media rows owned by a found item (the `media` relationship). -/
def DB.foundMediaOf (db : DB) (i : Nat) : List ItemMedia :=
  db.item_media.filter (fun m => m.item_id == i && m.item_type == "found")

/-- Proof media rows owned by a claim. -/
def DB.claimMediaOf (db : DB) (i : Nat) : List ClaimMedia :=
  db.claim_media.filter (fun m => m.claim_id == i)

/-- Replace the stored claim with the same id. -/
def DB.updateClaim (db : DB) (c : Claim) : DB :=
  { db with claims := db.claims.map (fun x => if x.id == c.id then c else x) }

/-- Replace the stored lost item with the same id. -/
def DB.updateLostItem (db : DB) (it : LostItem) : DB :=
  { db with lost_items := db.lost_items.map (fun x => if x.id == it.id then it else x) }

/-- Replace the stored found item with the same id. -/
def DB.updateFoundItem (db : DB) (it : FoundItem) : DB :=
  { db with found_items := db.found_items.map (fun x => if x.id == it.id then it else x) }

/-- The resolution of a claim's polymorphic item reference. -/
inductive ItemRecord
  | lost (item : LostItem)
  | found (item : FoundItem)
deriving Repr, DecidableEq

def ItemRecord.title : ItemRecord → String
  | .lost it => it.title
  | .found it => it.title

def ItemRecord.image_url : ItemRecord → Option String
  | .lost it => it.image_url
  | .found it => it.image_url

def ItemRecord.status : ItemRecord → String
  | .lost it => it.status
  | .found it => it.status

/-- `Claim.get_item`: resolve the id + kind-tag reference against whichever
table the tag selects (`None` for an unknown tag or a missing row). -/
def Claim.get_item (c : Claim) (db : DB) : Option ItemRecord :=
  if c.item_type == "lost" then (db.getLostItem c.item_id).map ItemRecord.lost
  else if c.item_type == "found" then (db.getFoundItem c.item_id).map ItemRecord.found
  else none

/-- Media rows of a resolved item. -/
def ItemRecord.mediaOf (it : ItemRecord) (db : DB) : List ItemMedia :=
  match it with
  | .lost i => db.lostMediaOf i.id
  | .found i => db.foundMediaOf i.id

/-! ## Serialization (`to_dict` methods) -/

/-- Serialized form of a media attachment (`ItemMedia.to_dict`).  The secure
`url` field is present (`some`) only when the serializer was asked for it. -/
structure MediaDict where
  id : Nat
  media_type : String
  preview_url : String
  is_primary : Bool
  created_at : Nat
  format : Option String
  url : Option String
deriving Repr, DecidableEq

/-- `ItemMedia.to_dict(include_secure=...)`. -/
def ItemMedia.to_dict (m : ItemMedia) (include_secure : Bool) : MediaDict :=
  { id := m.id, media_type := m.media_type, preview_url := m.preview_url,
    is_primary := m.is_primary, created_at := m.created_at, format := m.format,
    url := if include_secure then some m.url else none }

/-- Stable insertion of an element into a list sorted by `le`. -/
def insertByLe {α : Type} (le : α → α → Bool) (a : α) : List α → List α
  | [] => [a]
  | b :: bs => if le a b then a :: b :: bs else b :: insertByLe le a bs

/-- Insertion sort by a boolean `le`; models an SQL `order_by`. -/
def sortByLe {α : Type} (le : α → α → Bool) : List α → List α
  | [] => []
  | a :: as => insertByLe le a (sortByLe le as)

/-- Ordering key `is_primary.desc(), created_at.asc()` used by every media
serialization site. -/
def mediaOrderLe (a b : ItemMedia) : Bool :=
  (a.is_primary && !b.is_primary) ||
    (a.is_primary == b.is_primary && decide (a.created_at ≤ b.created_at))

/-- Item media sorted primary-first then by creation time ascending. -/
def orderedMedia (ms : List ItemMedia) : List ItemMedia :=
  sortByLe mediaOrderLe ms

/-- Serialized lost item (`LostItem.to_dict`). -/
structure LostItemDict where
  id : Nat
  user_id : Nat
  user_name : Option String
  user_email : Option String
  title : String
  description : Option String
  category : Option String
  location_lost : Option String
  date_lost : Option String
  image_url : Option String
  status : String
  item_type : String
  created_at : Nat
  updated_at : Nat
  media : List MediaDict
deriving Repr, DecidableEq

/-- `LostItem.to_dict(include_secure_media=...)`. -/
def LostItem.to_dict (item : LostItem) (db : DB) (include_secure_media : Bool) : LostItemDict :=
  let user := db.getUser (item.user_id : Int)
  { id := item.id, user_id := item.user_id,
    user_name := user.map (fun u => u.name), user_email := user.map (fun u => u.email),
    title := item.title, description := item.description, category := item.category,
    location_lost := item.location_lost, date_lost := item.date_lost,
    image_url := item.image_url, status := item.status, item_type := "lost",
    created_at := item.created_at, updated_at := item.updated_at,
    media := (orderedMedia (db.lostMediaOf item.id)).map
      (fun m => m.to_dict include_secure_media) }

/-- Serialized found item (`FoundItem.to_dict`). -/
structure FoundItemDict where
  id : Nat
  finder_id : Nat
  finder_name : Option String
  finder_email : Option String
  title : String
  description : Option String
  category : Option String
  location_found : Option String
  date_found : Option String
  image_url : Option String
  status : String
  item_type : String
  created_at : Nat
  updated_at : Nat
  media : List MediaDict
deriving Repr, DecidableEq

/-- `FoundItem.to_dict(include_secure_media=...)`. -/
def FoundItem.to_dict (item : FoundItem) (db : DB) (include_secure_media : Bool) : FoundItemDict :=
  let finder := db.getUser (item.finder_id : Int)
  { id := item.id, finder_id := item.finder_id,
    finder_name := finder.map (fun u => u.name), finder_email := finder.map (fun u => u.email),
    title := item.title, description := item.description, category := item.category,
    location_found := item.location_found, date_found := item.date_found,
    image_url := item.image_url, status := item.status, item_type := "found",
    created_at := item.created_at, updated_at := item.updated_at,
    media := (orderedMedia (db.foundMediaOf item.id)).map
      (fun m => m.to_dict include_secure_media) }

/-- Serialized claim (`Claim.to_dict`): claimer identity, verification
details and the referenced item's legacy image URL, status and media. -/
structure ClaimDict where
  id : Nat
  item_id : Nat
  item_type : String
  item_title : Option String
  claimer_id : Int
  claimer_name : Option String
  claimer_email : Option String
  status : String
  verification_details : Option String
  claimed_at : Nat
  created_at : Nat
  updated_at : Nat
  item_image_url : Option String
  item_status : Option String
  item_media : List MediaDict
deriving Repr, DecidableEq

/-- `Claim.to_dict(include_secure_media=...)`. -/
def Claim.to_dict (c : Claim) (db : DB) (include_secure_media : Bool) : ClaimDict :=
  let item := c.get_item db
  let claimer := db.getUser c.claimer_id
  { id := c.id, item_id := c.item_id, item_type := c.item_type,
    item_title := item.map ItemRecord.title,
    claimer_id := c.claimer_id,
    claimer_name := claimer.map (fun u => u.name),
    claimer_email := claimer.map (fun u => u.email),
    status := c.status,
    verification_details := c.verification_details,
    claimed_at := c.claimed_at, created_at := c.created_at, updated_at := c.updated_at,
    item_image_url := item.bind ItemRecord.image_url,
    item_status := item.map ItemRecord.status,
    item_media := match item with
      | none => []
      | some it => (orderedMedia (it.mediaOf db)).map
          (fun m => m.to_dict include_secure_media) }

/-- Serialized item of either kind. -/
inductive ItemDict
  | lost (d : LostItemDict)
  | found (d : FoundItemDict)
deriving Repr, DecidableEq

/-- Dispatch `to_dict` through the polymorphic reference. -/
def ItemRecord.to_dict (it : ItemRecord) (db : DB) (include_secure_media : Bool) : ItemDict :=
  match it with
  | .lost i => .lost (i.to_dict db include_secure_media)
  | .found i => .found (i.to_dict db include_secure_media)

/-- Media entries of a serialized item of either kind. -/
def ItemDict.media : ItemDict → List MediaDict
  | .lost d => d.media
  | .found d => d.media

/-! ## External media collaborator (`app/utils/cloudinary_client.py`) -/

/-- The payload `upload_media` returns on success. -/
structure MediaUpload where
  url : String
  preview_url : String
  public_id : Option String
  format : Option String
deriving Repr, DecidableEq

/-- Result of an upload call: `(True, payload)` or `(False, reason)`. -/
inductive UploadResult
  | ok (payload : MediaUpload)
  | fail (reason : String)
deriving Repr, DecidableEq

/-- A non-empty (truthy) uploaded file.  The outcome the external service
would produce for this file is carried with it, making the synchronous,
fallible collaborator deterministic in the embedding. -/
structure UFile where
  upload_result : UploadResult
deriving Repr, DecidableEq

/-- `cloudinary_client.upload_media`: success with a payload or a failure
with a string reason. -/
def upload_media (f : UFile) : UploadResult :=
  f.upload_result

/-! ## HTTP responses -/

/-- The uniform response envelope `{success, error?, message?}` plus the
HTTP status code. -/
structure Resp where
  success : Bool
  code : Nat
  error : Option String
  message : Option String
deriving Repr, DecidableEq

/-- A failure response. -/
def Resp.err (code : Nat) (msg : String) : Resp :=
  { success := false, code := code, error := some msg, message := none }

/-- A success response. -/
def Resp.ok (code : Nat) (msg : Option String) : Resp :=
  { success := true, code := code, error := none, message := msg }

/-! ## Claim routes (`app/routes/claims.py`) -/

/-- Outcome of a mutating claim route: the committed store, the response and
the serialized claim when present. -/
structure ClaimOut where
  db : DB
  resp : Resp
  data : Option ClaimDict
deriving Repr, DecidableEq

/-- The transition table of `verify_claim` (`allowed_transitions` with the
`.get(current_status, set())` default). -/
def allowed_transitions (s : String) : List String :=
  if s == "pending" then ["verified", "returned", "rejected"]
  else if s == "verified" then ["returned"]
  else if s == "returned" then []
  else if s == "rejected" then []
  else []

/-- `routes/claims.py verify_claim`: the admin-gated transition endpoint.
`identity` is the parsed JWT identity (`none` when `int()` failed),
`status_in`/`verification_details_in` the raw JSON body fields. -/
def verify_claim (db : DB) (now : Nat) (claim_id : Nat) (identity : Option Int)
    (status_in verification_details_in : Option String) : ClaimOut :=
  let vi := validate_integer (some (claim_id : Int)) "Claim ID" (some 1) none true
  if !vi.1 then ⟨db, Resp.err 400 (vi.2.getD ""), none⟩
  else
    match identity with
    | none => ⟨db, Resp.err 401 "Invalid authentication token", none⟩
    | some admin_id =>
      match db.getUser admin_id with
      | none => ⟨db, Resp.err 404 "Admin user not found", none⟩
      | some admin_user =>
        if admin_user.role != "admin" then
          ⟨db, Resp.err 403 "Access denied: admin privileges required", none⟩
        else
          match db.getClaim claim_id with
          | none => ⟨db, Resp.err 404 "Claim not found", none⟩
          | some claim =>
            let new_status_o := sanitize_input status_in
            let verification_details := sanitize_input verification_details_in
            let ve := validate_enum new_status_o "Status" ["verified", "returned", "rejected"] true
            if !ve.1 then ⟨db, Resp.err 400 (ve.2.getD ""), none⟩
            else
              let new_status := new_status_o.getD ""
              if new_status == claim.status then
                ⟨db, Resp.err 400 ("Claim is already " ++ claim.status), none⟩
              else if !((allowed_transitions claim.status).contains new_status) then
                ⟨db, Resp.err 400 ("Cannot transition claim from " ++ claim.status ++
                  " to " ++ new_status), none⟩
              else
                let vd := if strTruthy verification_details then
                    validate_string_field verification_details "Verification Details" 1 2000 false
                  else (true, none)
                if !vd.1 then ⟨db, Resp.err 400 (vd.2.getD ""), none⟩
                else
                  let claim1 := { claim with
                    status := new_status,
                    verification_details :=
                      if strTruthy verification_details then verification_details
                      else claim.verification_details,
                    updated_at := now }
                  let db1 := db.updateClaim claim1
                  let db2 :=
                    if new_status == "verified" then
                      match claim1.get_item db1 with
                      | some (ItemRecord.lost it) =>
                        db1.updateLostItem { it with status := "claimed", updated_at := now }
                      | some (ItemRecord.found it) =>
                        db1.updateFoundItem { it with status := "claimed", updated_at := now }
                      | none => db1
                    else if new_status == "returned" then
                      match claim1.get_item db1 with
                      | some (ItemRecord.lost it) =>
                        db1.updateLostItem { it with status := "closed", updated_at := now }
                      | some (ItemRecord.found it) =>
                        db1.updateFoundItem { it with status := "closed", updated_at := now }
                      | none => db1
                    else db1
                  ⟨db2, Resp.ok 200 (some ("Claim " ++ new_status ++ " successfully")),
                    some (claim1.to_dict db2 false)⟩

/-- Request body of `create_claim` (`request.form` / JSON fields). -/
structure CreateClaimData where
  item_id : Option Int
  item_type : Option String
  verification_details : Option String
deriving Repr, DecidableEq

/-- The image-upload loop of `create_claim`: skips falsy files, stops at the
first failed upload, marks the first successfully uploaded file primary. -/
def uploadClaimImages (claim_id : Nat) (files : List (Option UFile))
    (primary_media_set : Bool) (nid : Nat) :
    Except String (List ClaimMedia × Bool × Nat) :=
  match files with
  | [] => Except.ok ([], primary_media_set, nid)
  | none :: rest => uploadClaimImages claim_id rest primary_media_set nid
  | some f :: rest =>
    match upload_media f with
    | UploadResult.fail r => Except.error r
    | UploadResult.ok up =>
      let m : ClaimMedia :=
        { id := nid, claim_id := claim_id, media_type := "image",
          url := up.url, preview_url := up.preview_url, public_id := up.public_id,
          format := up.format, is_primary := !primary_media_set }
      (uploadClaimImages claim_id rest true (nid + 1)).map
        (fun r => (m :: r.1, r.2.1, r.2.2))

/-- `routes/claims.py create_claim`.  `proof_images` models the uploaded
file list (`none` entries are falsy file objects), `proof_video` the optional
video file; every failure path returns the unchanged (rolled-back) store. -/
def create_claim (db : DB) (now : Nat) (identity : Option Int)
    (data : Option CreateClaimData) (proof_images : List (Option UFile))
    (proof_video : Option UFile) : ClaimOut :=
  match identity with
  | none => ⟨db, Resp.err 401 "Invalid authentication token", none⟩
  | some claimer_id =>
    match data with
    | none => ⟨db, Resp.err 400 "No data provided", none⟩
    | some d =>
      let item_id_o := d.item_id
      let item_type_o := sanitize_input d.item_type
      let verification_details := sanitize_input d.verification_details
      if !(intTruthy item_id_o) || !(strTruthy item_type_o) then
        ⟨db, Resp.err 400 "item_id and item_type are required", none⟩
      else
        let vi := validate_integer item_id_o "Item ID" (some 1) none true
        if !vi.1 then ⟨db, Resp.err 400 (vi.2.getD ""), none⟩
        else
          let vt := validate_enum item_type_o "Item Type" ["lost", "found"] true
          if !vt.1 then ⟨db, Resp.err 400 (vt.2.getD ""), none⟩
          else
            let vd := if strTruthy verification_details then
                validate_string_field verification_details "Verification Details" 1 2000 false
              else (true, none)
            if !vd.1 then ⟨db, Resp.err 400 (vd.2.getD ""), none⟩
            else
              let item_type := item_type_o.getD ""
              let item_id := (item_id_o.getD 0).toNat
              let item : Option ItemRecord :=
                if item_type == "lost" then (db.getLostItem item_id).map ItemRecord.lost
                else if item_type == "found" then (db.getFoundItem item_id).map ItemRecord.found
                else none
              match item with
              | none => ⟨db, Resp.err 404 (pyCapitalize item_type ++ " item not found"), none⟩
              | some item =>
                if proof_images.isEmpty && proof_video == none then
                  ⟨db, Resp.err 400 "Please provide at least one proof image or video", none⟩
                else if item.status == "claimed" || item.status == "closed" then
                  ⟨db, Resp.err 400 ("Item is already " ++ item.status ++
                    " and cannot be claimed"), none⟩
                else
                  let existing_claim := db.claims.find? (fun c =>
                    (c.item_id == item_id) && (c.item_type == item_type) &&
                      (c.claimer_id == claimer_id) && (c.status == "pending"))
                  match existing_claim with
                  | some _ =>
                    ⟨db, Resp.err 400 "You already have a pending claim for this item", none⟩
                  | none =>
                    let claim : Claim := {
                      id := db.next_id, item_id := item_id, item_type := item_type,
                      claimer_id := claimer_id, status := "pending",
                      verification_details := verification_details,
                      claimed_at := now, created_at := now, updated_at := now }
                    match uploadClaimImages claim.id proof_images false (db.next_id + 1) with
                    | Except.error r =>
                      ⟨db, Resp.err 400 ("Image upload failed: " ++ r), none⟩
                    | Except.ok (imgs, primary_set, nid) =>
                      match proof_video with
                      | some vf =>
                        match upload_media vf with
                        | UploadResult.fail r =>
                          ⟨db, Resp.err 400 ("Video upload failed: " ++ r), none⟩
                        | UploadResult.ok up =>
                          let vm : ClaimMedia :=
                            { id := nid, claim_id := claim.id,
                              media_type := "video", url := up.url,
                              preview_url := up.preview_url, public_id := up.public_id,
                              format := up.format, is_primary := !primary_set }
                          let db2 :=
                            { db with
                              claims := db.claims ++ [claim],
                              claim_media := db.claim_media ++ imgs ++ [vm],
                              next_id := nid + 1 }
                          ⟨db2, Resp.ok 201 (some "Claim created successfully"),
                            some (claim.to_dict db2 false)⟩
                      | none =>
                        let db2 :=
                          { db with
                            claims := db.claims ++ [claim],
                            claim_media := db.claim_media ++ imgs,
                            next_id := nid }
                        ⟨db2, Resp.ok 201 (some "Claim created successfully"),
                          some (claim.to_dict db2 false)⟩

/-! ## Item routes (`app/routes/items.py`) -/

/-- Request body shared by `report_lost_item` and `report_found_item`
(`user_id`/`finder_id` is the body field, before the JWT fallback). -/
structure ReportItemData where
  body_user_id : Option Int
  title : Option String
  description : Option String
  category : Option String
  location : Option String
  date : Option String
  image_url : Option String
deriving Repr, DecidableEq

/-- Outcome of a mutating item route. -/
structure ItemOut where
  db : DB
  resp : Resp
  data : Option ItemDict
deriving Repr, DecidableEq

/-- The image-upload loop shared by the item-report routes: skips falsy
files, stops at the first failed upload; `is_primary` is `index == 0` where
`index` counts every submitted slot (including skipped falsy ones), and the
legacy top-level `image_url` is taken from the slot at index 0 only.
Returns the media rows, the primary image URL and the next fresh id. -/
def uploadItemImages (item_id : Nat) (item_type : String) (now : Nat)
    (files : List (Option UFile)) (index : Nat) (nid : Nat) :
    Except String (List ItemMedia × Option String × Nat) :=
  match files with
  | [] => Except.ok ([], none, nid)
  | none :: rest => uploadItemImages item_id item_type now rest (index + 1) nid
  | some f :: rest =>
    match upload_media f with
    | UploadResult.fail r => Except.error r
    | UploadResult.ok up =>
      let m : ItemMedia :=
        { id := nid, item_id := item_id, item_type := item_type,
          media_type := "image", url := up.url, preview_url := up.preview_url,
          public_id := up.public_id, format := up.format,
          is_primary := index == 0, created_at := now }
      (uploadItemImages item_id item_type now rest (index + 1) (nid + 1)).map
        (fun r => (m :: r.1, (if index == 0 then some up.url else r.2.1), r.2.2))

/-- The field-validation chain shared by the item-report routes (title,
owner/finder id, description, category, location, date, legacy image URL):
the first failing validator's message, `none` when all pass. -/
def report_item_validation_error (ident : Option Int) (d : ReportItemData)
    (id_field : String) : Option String :=
  let user_id_o := if intTruthy d.body_user_id then d.body_user_id else ident
  let title := sanitize_input d.title
  let description := sanitize_input d.description
  let category := sanitize_input d.category
  let location := sanitize_input d.location
  let image_url := sanitize_input d.image_url
  let vt := validate_string_field title "Title" 1 200 true
  if !vt.1 then some (vt.2.getD "")
  else
    let vu := validate_integer user_id_o id_field (some 1) none true
    if !vu.1 then some (vu.2.getD "")
    else
      let vde := if strTruthy description then
          validate_string_field description "Description" 1 2000 false
        else (true, none)
      if !vde.1 then some (vde.2.getD "")
      else
        let vc := if strTruthy category then
            validate_string_field category "Category" 1 50 false
          else (true, none)
        if !vc.1 then some (vc.2.getD "")
        else
          let vl := if strTruthy location then
              validate_string_field location "Location" 1 200 false
            else (true, none)
          if !vl.1 then some (vl.2.getD "")
          else
            let vdt := if strTruthy d.date then validate_date_format d.date else (true, none)
            if !vdt.1 then some (vdt.2.getD "")
            else
              let vur := if strTruthy image_url then validate_url image_url else (true, none)
              if !vur.1 then some (vur.2.getD "") else none

/-- The media phase of `report_lost_item` after every check passed: upload
the image files, insert the legacy direct-URL row when no files were sent,
upload the optional video, set the item's legacy `image_url` to the primary
image URL and commit; any upload failure returns the unchanged store. -/
def commit_lost_item (db : DB) (now : Nat) (lost_item : LostItem)
    (image_url : Option String) (image_files : List (Option UFile))
    (video_file : Option UFile) : ItemOut :=
  match uploadItemImages lost_item.id "lost" now image_files 0 (db.next_id + 1) with
  | Except.error r => ⟨db, Resp.err 400 ("Image upload failed: " ++ r), none⟩
  | Except.ok (imgs, up_primary_url, nid) =>
    let legacy : List ItemMedia :=
      if strTruthy image_url && image_files.isEmpty then
        [{ id := nid, item_id := lost_item.id, item_type := "lost",
           media_type := "image", url := image_url.getD "",
           preview_url := image_url.getD "", public_id := none,
           format := none, is_primary := true, created_at := now }]
      else []
    let nid1 := nid + legacy.length
    let primary_image_url :=
      if strTruthy image_url && image_files.isEmpty then image_url
      else up_primary_url
    match video_file with
    | some vf =>
      match upload_media vf with
      | UploadResult.fail r => ⟨db, Resp.err 400 ("Video upload failed: " ++ r), none⟩
      | UploadResult.ok up =>
        let vm : ItemMedia :=
          { id := nid1, item_id := lost_item.id, item_type := "lost",
            media_type := "video", url := up.url,
            preview_url := up.preview_url, public_id := up.public_id,
            format := up.format, is_primary := false, created_at := now }
        let item1 := { lost_item with image_url := primary_image_url }
        let db2 :=
          { db with
            lost_items := db.lost_items ++ [item1],
            item_media := db.item_media ++ imgs ++ legacy ++ [vm],
            next_id := nid1 + 1 }
        ⟨db2, Resp.ok 201 (some "Lost item reported successfully"),
          some (ItemDict.lost (item1.to_dict db2 false))⟩
    | none =>
      let item1 := { lost_item with image_url := primary_image_url }
      let db2 :=
        { db with
          lost_items := db.lost_items ++ [item1],
          item_media := db.item_media ++ imgs ++ legacy,
          next_id := nid1 }
      ⟨db2, Resp.ok 201 (some "Lost item reported successfully"),
        some (ItemDict.lost (item1.to_dict db2 false))⟩

/-- `routes/items.py report_lost_item`.  The new item starts with status
`pending`; media attach transactionally and any upload failure returns the
unchanged store. -/
def report_lost_item (db : DB) (now : Nat) (identity : Option Int)
    (data : Option ReportItemData) (image_files : List (Option UFile))
    (video_file : Option UFile) : ItemOut :=
  match data with
  | none => ⟨db, Resp.err 400 "No data provided", none⟩
  | some d =>
    match report_item_validation_error identity d "User ID" with
    | some e => ⟨db, Resp.err 400 e, none⟩
    | none =>
      let user_id_o := if intTruthy d.body_user_id then d.body_user_id else identity
      match db.getUser (user_id_o.getD 0) with
      | none => ⟨db, Resp.err 404 "User not found", none⟩
      | some user =>
        let date_lost := if strTruthy d.date then d.date else none
        let lost_item : LostItem :=
          { id := db.next_id, user_id := user.id, title := (sanitize_input d.title).getD "",
            description := sanitize_input d.description,
            category := sanitize_input d.category,
            location_lost := sanitize_input d.location, date_lost := date_lost,
            image_url := none, status := "pending",
            created_at := now, updated_at := now }
        commit_lost_item db now lost_item (sanitize_input d.image_url)
          image_files video_file

/-- The media phase of `report_found_item`, identical to the lost one except
for the table and kind tag. -/
def commit_found_item (db : DB) (now : Nat) (found_item : FoundItem)
    (image_url : Option String) (image_files : List (Option UFile))
    (video_file : Option UFile) : ItemOut :=
  match uploadItemImages found_item.id "found" now image_files 0 (db.next_id + 1) with
  | Except.error r => ⟨db, Resp.err 400 ("Image upload failed: " ++ r), none⟩
  | Except.ok (imgs, up_primary_url, nid) =>
    let legacy : List ItemMedia :=
      if strTruthy image_url && image_files.isEmpty then
        [{ id := nid, item_id := found_item.id, item_type := "found",
           media_type := "image", url := image_url.getD "",
           preview_url := image_url.getD "", public_id := none,
           format := none, is_primary := true, created_at := now }]
      else []
    let nid1 := nid + legacy.length
    let primary_image_url :=
      if strTruthy image_url && image_files.isEmpty then image_url
      else up_primary_url
    match video_file with
    | some vf =>
      match upload_media vf with
      | UploadResult.fail r => ⟨db, Resp.err 400 ("Video upload failed: " ++ r), none⟩
      | UploadResult.ok up =>
        let vm : ItemMedia :=
          { id := nid1, item_id := found_item.id, item_type := "found",
            media_type := "video", url := up.url,
            preview_url := up.preview_url, public_id := up.public_id,
            format := up.format, is_primary := false, created_at := now }
        let item1 := { found_item with image_url := primary_image_url }
        let db2 :=
          { db with
            found_items := db.found_items ++ [item1],
            item_media := db.item_media ++ imgs ++ legacy ++ [vm],
            next_id := nid1 + 1 }
        ⟨db2, Resp.ok 201 (some "Found item reported successfully"),
          some (ItemDict.found (item1.to_dict db2 false))⟩
    | none =>
      let item1 := { found_item with image_url := primary_image_url }
      let db2 :=
        { db with
          found_items := db.found_items ++ [item1],
          item_media := db.item_media ++ imgs ++ legacy,
          next_id := nid1 }
      ⟨db2, Resp.ok 201 (some "Found item reported successfully"),
        some (ItemDict.found (item1.to_dict db2 false))⟩

/-- `routes/items.py report_found_item`.  Identical to the lost route except
for the table, the `Finder ID` field name and the initial status
`available`. -/
def report_found_item (db : DB) (now : Nat) (identity : Option Int)
    (data : Option ReportItemData) (image_files : List (Option UFile))
    (video_file : Option UFile) : ItemOut :=
  match data with
  | none => ⟨db, Resp.err 400 "No data provided", none⟩
  | some d =>
    match report_item_validation_error identity d "Finder ID" with
    | some e => ⟨db, Resp.err 400 e, none⟩
    | none =>
      let finder_id_o := if intTruthy d.body_user_id then d.body_user_id else identity
      match db.getUser (finder_id_o.getD 0) with
      | none => ⟨db, Resp.err 404 "User not found", none⟩
      | some user =>
        let date_found := if strTruthy d.date then d.date else none
        let found_item : FoundItem :=
          { id := db.next_id, finder_id := user.id, title := (sanitize_input d.title).getD "",
            description := sanitize_input d.description,
            category := sanitize_input d.category,
            location_found := sanitize_input d.location, date_found := date_found,
            image_url := none, status := "available",
            created_at := now, updated_at := now }
        commit_found_item db now found_item (sanitize_input d.image_url)
          image_files video_file

/-! ## Read-only routes.  These functions take the store and return only a
response; they have no way to mutate the store, mirroring the absence of any
session mutation in the handlers. -/

/-- Case-insensitive substring test (SQL `ILIKE '%needle%'`). -/
def containsCI (hay needle : String) : Bool :=
  decide ((hay.toLower.splitOn needle.toLower).length > 1)

/-- Claims ordered `created_at.desc()`. -/
def orderedClaimsDesc (cs : List Claim) : List Claim :=
  sortByLe (fun a b => decide (b.created_at ≤ a.created_at)) cs

/-- Result of a claim read endpoint. -/
structure ClaimReadOut where
  resp : Resp
  data : Option ClaimDict
deriving Repr, DecidableEq

/-- Result of a claim list endpoint. -/
structure ClaimListOut where
  resp : Resp
  claims : Option (List ClaimDict)
  count : Option Nat
deriving Repr, DecidableEq

/-- `routes/claims.py get_claim`: no authentication of any kind; any caller
receives the full default serialization. -/
def get_claim (db : DB) (claim_id : Nat) : ClaimReadOut :=
  let vi := validate_integer (some (claim_id : Int)) "Claim ID" (some 1) none true
  if !vi.1 then ⟨Resp.err 400 (vi.2.getD ""), none⟩
  else
    match db.getClaim claim_id with
    | none => ⟨Resp.err 404 "Claim not found", none⟩
    | some claim => ⟨Resp.ok 200 none, some (claim.to_dict db false)⟩

/-- `routes/claims.py get_user_claims`: unauthenticated list of one user's
claims with optional status and item-type filters, most recent first. -/
def get_user_claims (db : DB) (user_id : Nat)
    (status_q item_type_q : Option String) : ClaimListOut :=
  let vi := validate_integer (some (user_id : Int)) "User ID" (some 1) none true
  if !vi.1 then ⟨Resp.err 400 (vi.2.getD ""), none, none⟩
  else
    match db.getUser (user_id : Int) with
    | none => ⟨Resp.err 404 "User not found", none, none⟩
    | some _ =>
      let status := sanitize_input status_q
      let item_type := sanitize_input item_type_q
      let vs := if strTruthy status then
          validate_enum status "Status" ["pending", "verified", "returned", "rejected"] false
        else (true, none)
      if !vs.1 then ⟨Resp.err 400 (vs.2.getD ""), none, none⟩
      else
        let vt := if strTruthy item_type then
            validate_enum item_type "Item Type" ["lost", "found"] false
          else (true, none)
        if !vt.1 then ⟨Resp.err 400 (vt.2.getD ""), none, none⟩
        else
          let base := db.claims.filter (fun c => c.claimer_id == (user_id : Int))
          let f1 := if strTruthy status then
              base.filter (fun c => c.status == status.getD "")
            else base
          let f2 := if strTruthy item_type then
              f1.filter (fun c => c.item_type == item_type.getD "")
            else f1
          let claims := orderedClaimsDesc f2
          ⟨Resp.ok 200 none, some (claims.map (fun c => c.to_dict db false)),
            some claims.length⟩

/-- `routes/claims.py get_all_claims`: the admin-gated listing. -/
def get_all_claims (db : DB) (identity : Option Int)
    (status_q : Option String) : ClaimListOut :=
  match identity with
  | none => ⟨Resp.err 401 "Invalid authentication token", none, none⟩
  | some admin_id =>
    match db.getUser admin_id with
    | none => ⟨Resp.err 403 "Access denied: admin privileges required", none, none⟩
    | some admin_user =>
      if admin_user.role != "admin" then
        ⟨Resp.err 403 "Access denied: admin privileges required", none, none⟩
      else
        let status := sanitize_input status_q
        let vs := if strTruthy status then
            validate_enum status "Status" ["pending", "verified", "returned", "rejected"] false
          else (true, none)
        if !vs.1 then ⟨Resp.err 400 (vs.2.getD ""), none, none⟩
        else
          let f1 := if strTruthy status then
              db.claims.filter (fun c => c.status == status.getD "")
            else db.claims
          let claims := orderedClaimsDesc f1
          ⟨Resp.ok 200 none, some (claims.map (fun c => c.to_dict db false)),
            some claims.length⟩

/-- Result of the admin media-retrieval endpoint. -/
structure ClaimMediaOut where
  resp : Resp
  claim : Option ClaimDict
  item : Option ItemDict
deriving Repr, DecidableEq

/-- `routes/claims.py get_claim_media`: the only operation serializing with
`include_secure_media=True`. -/
def get_claim_media (db : DB) (identity : Option Int) (claim_id : Nat) : ClaimMediaOut :=
  match identity with
  | none => ⟨Resp.err 401 "Invalid authentication token", none, none⟩
  | some admin_id =>
    match db.getUser admin_id with
    | none => ⟨Resp.err 403 "Access denied: admin privileges required", none, none⟩
    | some admin_user =>
      if admin_user.role != "admin" then
        ⟨Resp.err 403 "Access denied: admin privileges required", none, none⟩
      else
        let vi := validate_integer (some (claim_id : Int)) "Claim ID" (some 1) none true
        if !vi.1 then ⟨Resp.err 400 (vi.2.getD ""), none, none⟩
        else
          match db.getClaim claim_id with
          | none => ⟨Resp.err 404 "Claim not found", none, none⟩
          | some claim =>
            match claim.get_item db with
            | none => ⟨Resp.err 404 "Associated item not found", none, none⟩
            | some item =>
              ⟨Resp.ok 200 none, some (claim.to_dict db true),
                some (item.to_dict db true)⟩

/-- Result of an item read endpoint. -/
structure ItemReadOut where
  resp : Resp
  data : Option ItemDict
deriving Repr, DecidableEq

/-- Result of an item list endpoint. -/
structure ItemListOut where
  resp : Resp
  items : Option (List ItemDict)
  count : Option Nat
deriving Repr, DecidableEq

/-- Lost items ordered `created_at.desc()`. -/
def orderedLostDesc (xs : List LostItem) : List LostItem :=
  sortByLe (fun a b => decide (b.created_at ≤ a.created_at)) xs

/-- Found items ordered `created_at.desc()`. -/
def orderedFoundDesc (xs : List FoundItem) : List FoundItem :=
  sortByLe (fun a b => decide (b.created_at ≤ a.created_at)) xs

/-- `routes/items.py get_lost_items`: unauthenticated filtered listing. -/
def get_lost_items (db : DB) (status_q category_q location_q keyword_q : Option String)
    (user_id_q : Option Int) : ItemListOut :=
  let status := sanitize_input status_q
  let category := sanitize_input category_q
  let location := sanitize_input location_q
  let keyword := sanitize_input keyword_q
  let vs := if strTruthy status then
      validate_enum status "Status" ["pending", "claimed", "closed"] false
    else (true, none)
  if !vs.1 then ⟨Resp.err 400 (vs.2.getD ""), none, none⟩
  else
    let vu := if intTruthy user_id_q then
        validate_integer user_id_q "User ID" (some 1) none false
      else (true, none)
    if !vu.1 then ⟨Resp.err 400 (vu.2.getD ""), none, none⟩
    else
      let q0 := db.lost_items
      let q1 := if strTruthy status then
          q0.filter (fun it => it.status == status.getD "") else q0
      let q2 := if strTruthy category then
          q1.filter (fun it => containsCI (it.category.getD "") (category.getD "")) else q1
      let q3 := if strTruthy location then
          q2.filter (fun it => containsCI (it.location_lost.getD "") (location.getD "")) else q2
      let q4 := if intTruthy user_id_q then
          q3.filter (fun it => (it.user_id : Int) == user_id_q.getD 0) else q3
      let q5 := if strTruthy keyword then
          q4.filter (fun it => containsCI it.title (keyword.getD "") ||
            (it.description != none && containsCI (it.description.getD "") (keyword.getD "")))
        else q4
      let items := orderedLostDesc q5
      ⟨Resp.ok 200 none,
        some (items.map (fun it => ItemDict.lost (it.to_dict db false))),
        some items.length⟩

/-- `routes/items.py get_lost_item`: unauthenticated item detail. -/
def get_lost_item (db : DB) (item_id : Nat) : ItemReadOut :=
  let vi := validate_integer (some (item_id : Int)) "Item ID" (some 1) none true
  if !vi.1 then ⟨Resp.err 400 (vi.2.getD ""), none⟩
  else
    match db.getLostItem item_id with
    | none => ⟨Resp.err 404 "Lost item not found", none⟩
    | some it => ⟨Resp.ok 200 none, some (ItemDict.lost (it.to_dict db false))⟩

/-- `routes/items.py get_found_items`: unauthenticated filtered listing. -/
def get_found_items (db : DB) (status_q category_q location_q keyword_q : Option String)
    (finder_id_q : Option Int) : ItemListOut :=
  let status := sanitize_input status_q
  let category := sanitize_input category_q
  let location := sanitize_input location_q
  let keyword := sanitize_input keyword_q
  let vs := if strTruthy status then
      validate_enum status "Status" ["available", "claimed", "closed"] false
    else (true, none)
  if !vs.1 then ⟨Resp.err 400 (vs.2.getD ""), none, none⟩
  else
    let vu := if intTruthy finder_id_q then
        validate_integer finder_id_q "Finder ID" (some 1) none false
      else (true, none)
    if !vu.1 then ⟨Resp.err 400 (vu.2.getD ""), none, none⟩
    else
      let q0 := db.found_items
      let q1 := if strTruthy status then
          q0.filter (fun it => it.status == status.getD "") else q0
      let q2 := if strTruthy category then
          q1.filter (fun it => containsCI (it.category.getD "") (category.getD "")) else q1
      let q3 := if strTruthy location then
          q2.filter (fun it => containsCI (it.location_found.getD "") (location.getD "")) else q2
      let q4 := if intTruthy finder_id_q then
          q3.filter (fun it => (it.finder_id : Int) == finder_id_q.getD 0) else q3
      let q5 := if strTruthy keyword then
          q4.filter (fun it => containsCI it.title (keyword.getD "") ||
            (it.description != none && containsCI (it.description.getD "") (keyword.getD "")))
        else q4
      let items := orderedFoundDesc q5
      ⟨Resp.ok 200 none,
        some (items.map (fun it => ItemDict.found (it.to_dict db false))),
        some items.length⟩

/-- `routes/items.py get_found_item`: unauthenticated item detail. -/
def get_found_item (db : DB) (item_id : Nat) : ItemReadOut :=
  let vi := validate_integer (some (item_id : Int)) "Item ID" (some 1) none true
  if !vi.1 then ⟨Resp.err 400 (vi.2.getD ""), none⟩
  else
    match db.getFoundItem item_id with
    | none => ⟨Resp.err 404 "Found item not found", none⟩
    | some it => ⟨Resp.ok 200 none, some (ItemDict.found (it.to_dict db false))⟩

/-! ## Helper lemmas -/

theorem Resp.success_err (code : Nat) (msg : String) : (Resp.err code msg).success = false := rfl

theorem Resp.success_ok (code : Nat) (msg : Option String) : (Resp.ok code msg).success = true := rfl

theorem strTruthy_some_ne {s : String} (h : s ≠ "") : strTruthy (some s) = true := by
  simp [strTruthy, Bool.eq_false_iff, String.isEmpty_iff, h]

theorem validate_integer_pos {n : Int} (field : String) (h : 1 ≤ n) :
    validate_integer (some n) field (some 1) none true = (true, none) := by
  simp [validate_integer]
  omega

theorem validate_enum_mem {s : String} (field : String) {allowed : List String}
    (hmem : s ∈ allowed) (hne : s ≠ "") :
    validate_enum (some s) field allowed true = (true, none) := by
  simp [validate_enum, strTruthy_some_ne hne, hmem]

/-- Replacing the row a `find?`-by-id lookup returns makes the same lookup
return the replacement. -/
theorem find?_map_replace {α : Type} (idf : α → Nat) (cid : Nat) (c c1 : α)
    (hid : idf c1 = idf c) :
    ∀ l : List α, l.find? (fun x => idf x == cid) = some c →
      (l.map (fun x => if idf x == idf c1 then c1 else x)).find?
        (fun x => idf x == cid) = some c1 := by
  intro l
  induction l with
  | nil => intro h; simp at h
  | cons a as ih =>
    intro h
    have hcid : idf c = cid := by simpa using List.find?_some h
    by_cases ha : idf a = cid
    · rw [List.find?_cons_of_pos _ (by simpa using ha)] at h
      have hac : a = c := by simpa using h
      subst hac
      have h1 : (idf a == idf c1) = true := by simp [hid]
      simp only [List.map_cons, h1, if_true]
      exact List.find?_cons_of_pos _ (by simp [hid, hcid])
    · rw [List.find?_cons_of_neg _ (by simpa using ha)] at h
      have h1 : (idf a == idf c1) = false := by
        rw [hid, hcid]
        simp [ha]
      simp only [List.map_cons, h1, if_false]
      rw [List.find?_cons_of_neg _ (by simpa using ha)]
      exact ih h

theorem getClaim_updateClaim (db : DB) (cid : Nat) (c c1 : Claim)
    (h : db.getClaim cid = some c) (hid : c1.id = c.id) :
    (db.updateClaim c1).getClaim cid = some c1 := by
  exact find?_map_replace Claim.id cid c c1 hid db.claims h

theorem getLostItem_updateLostItem (db : DB) (iid : Nat) (it it1 : LostItem)
    (h : db.getLostItem iid = some it) (hid : it1.id = it.id) :
    (db.updateLostItem it1).getLostItem iid = some it1 := by
  exact find?_map_replace LostItem.id iid it it1 hid db.lost_items h

theorem getFoundItem_updateFoundItem (db : DB) (iid : Nat) (it it1 : FoundItem)
    (h : db.getFoundItem iid = some it) (hid : it1.id = it.id) :
    (db.updateFoundItem it1).getFoundItem iid = some it1 := by
  exact find?_map_replace FoundItem.id iid it it1 hid db.found_items h

/-! ## Fixtures used by the witnesses and counterexamples -/

/-- An administrator user. -/
def adminW : User := { id := 1, name := "Admin", email := "admin@example.com", role := "admin" }

/-- A regular user. -/
def aliceW : User := { id := 2, name := "Alice", email := "alice@example.com", role := "user" }

/-- A lost item in its initial state. -/
def lostW : LostItem :=
  { id := 10, user_id := 2, title := "Wallet", description := none, category := none,
    location_lost := none, date_lost := none, image_url := none, status := "pending",
    created_at := 0, updated_at := 0 }

/-- A pending claim by Alice on the lost item. -/
def claimW : Claim :=
  { id := 7, item_id := 10, item_type := "lost", claimer_id := 2, status := "pending",
    verification_details := none, claimed_at := 0, created_at := 0, updated_at := 0 }

/-- A claim already in the terminal state `returned`. -/
def claimRetW : Claim :=
  { id := 8, item_id := 10, item_type := "lost", claimer_id := 2, status := "returned",
    verification_details := none, claimed_at := 0, created_at := 0, updated_at := 0 }

/-- A pending claim whose polymorphic item reference resolves to nothing
(no lost item with id 99 exists). -/
def claimDangW : Claim :=
  { id := 9, item_id := 99, item_type := "lost", claimer_id := 2, status := "pending",
    verification_details := none, claimed_at := 0, created_at := 0, updated_at := 0 }

/-- A lost item that has already been claimed. -/
def lostClaimedW : LostItem :=
  { id := 20, user_id := 2, title := "Phone", description := none, category := none,
    location_lost := none, date_lost := none, image_url := none, status := "claimed",
    created_at := 0, updated_at := 0 }

/-- Store with an admin, a user, two lost items (one already claimed) and
three claims (pending, returned, and pending-with-dangling-reference). -/
def dbW : DB :=
  { users := [adminW, aliceW], lost_items := [lostW, lostClaimedW], found_items := [],
    item_media := [], claims := [claimW, claimRetW, claimDangW], claim_media := [],
    next_id := 11 }

theorem getLostItem_updateClaim (db : DB) (c : Claim) (iid : Nat) :
    (db.updateClaim c).getLostItem iid = db.getLostItem iid := rfl

theorem getFoundItem_updateClaim (db : DB) (c : Claim) (iid : Nat) :
    (db.updateClaim c).getFoundItem iid = db.getFoundItem iid := rfl

theorem getClaim_updateLostItem (db : DB) (it : LostItem) (cid : Nat) :
    (db.updateLostItem it).getClaim cid = db.getClaim cid := rfl

theorem getClaim_updateFoundItem (db : DB) (it : FoundItem) (cid : Nat) :
    (db.updateFoundItem it).getClaim cid = db.getClaim cid := rfl

theorem verify_claim_success_effects
    (db : DB) (now claim_id : Nat) (admin_id : Int) (admin : User)
    (stIn vdIn : Option String) (c : Claim) (ns : String)
    (hcid : 1 ≤ claim_id)
    (hadmin : db.getUser admin_id = some admin)
    (hrole : admin.role = "admin")
    (hclaim : db.getClaim claim_id = some c)
    (hns : sanitize_input stIn = some ns)
    (hmem : ns ∈ ["verified", "returned", "rejected"])
    (hne : ns ≠ "")
    (hnoop : ns ≠ c.status)
    (htrans : ns ∈ allowed_transitions c.status)
    (hvd : (if strTruthy (sanitize_input vdIn) then
        validate_string_field (sanitize_input vdIn) "Verification Details" 1 2000 false
      else (true, none)).1 = true) :
    (verify_claim db now claim_id (some admin_id) stIn vdIn).resp.success = true ∧
    (verify_claim db now claim_id (some admin_id) stIn vdIn).db.getClaim claim_id =
      some { c with
        status := ns,
        verification_details :=
          if strTruthy (sanitize_input vdIn) then sanitize_input vdIn
          else c.verification_details,
        updated_at := now } ∧
    (∀ it : LostItem, ns = "verified" → c.item_type = "lost" →
      db.getLostItem c.item_id = some it →
      (verify_claim db now claim_id (some admin_id) stIn vdIn).db.getLostItem c.item_id =
        some { it with status := "claimed", updated_at := now }) ∧
    (∀ it : FoundItem, ns = "verified" → c.item_type = "found" →
      db.getFoundItem c.item_id = some it →
      (verify_claim db now claim_id (some admin_id) stIn vdIn).db.getFoundItem c.item_id =
        some { it with status := "claimed", updated_at := now }) ∧
    (∀ it : LostItem, ns = "returned" → c.item_type = "lost" →
      db.getLostItem c.item_id = some it →
      (verify_claim db now claim_id (some admin_id) stIn vdIn).db.getLostItem c.item_id =
        some { it with status := "closed", updated_at := now }) ∧
    (∀ it : FoundItem, ns = "returned" → c.item_type = "found" →
      db.getFoundItem c.item_id = some it →
      (verify_claim db now claim_id (some admin_id) stIn vdIn).db.getFoundItem c.item_id =
        some { it with status := "closed", updated_at := now }) ∧
    (ns = "rejected" →
      (verify_claim db now claim_id (some admin_id) stIn vdIn).db.lost_items = db.lost_items ∧
      (verify_claim db now claim_id (some admin_id) stIn vdIn).db.found_items = db.found_items) := by
  have hvi : validate_integer (some (claim_id : Int)) "Claim ID" (some 1) none true = (true, none) :=
    validate_integer_pos _ (by exact_mod_cast hcid)
  have hbeq : (ns == c.status) = false := by simp [hnoop]
  have hcont : ((allowed_transitions c.status).contains ns) = true := by
    simpa using htrans
  simp only [verify_claim, hvi, hadmin, hclaim, hns, validate_enum_mem _ hmem hne,
    hrole, hbeq, hcont, hvd, Option.getD_some, Bool.not_true, bne_self_eq_false,
    Bool.false_eq_true, if_false]
  refine ⟨rfl, ?_, ?_, ?_, ?_, ?_, ?_⟩
  · show DB.getClaim _ claim_id = _
    split
    · split
      · rw [getClaim_updateLostItem]
        exact getClaim_updateClaim db claim_id c _ hclaim rfl
      · rw [getClaim_updateFoundItem]
        exact getClaim_updateClaim db claim_id c _ hclaim rfl
      · exact getClaim_updateClaim db claim_id c _ hclaim rfl
    · split
      · split
        · rw [getClaim_updateLostItem]
          exact getClaim_updateClaim db claim_id c _ hclaim rfl
        · rw [getClaim_updateFoundItem]
          exact getClaim_updateClaim db claim_id c _ hclaim rfl
        · exact getClaim_updateClaim db claim_id c _ hclaim rfl
      · exact getClaim_updateClaim db claim_id c _ hclaim rfl
  · intro it hv htype hit
    subst hv
    simp only [beq_self_eq_true, if_true, Claim.get_item, htype, getLostItem_updateClaim,
      hit, Option.map_some]
    exact getLostItem_updateLostItem _ _ it _ (by rw [getLostItem_updateClaim]; exact hit) rfl
  · intro it hv htype hit
    subst hv
    have h1 : ("lost" == "found") = false := by decide
    simp only [beq_self_eq_true, if_true, Claim.get_item, htype, h1, if_false,
      Bool.false_eq_true, getFoundItem_updateClaim, hit, Option.map_some]
    exact getFoundItem_updateFoundItem _ _ it _ (by rw [getFoundItem_updateClaim]; exact hit) rfl
  · intro it hv htype hit
    subst hv
    have h1 : ("returned" == "verified") = false := by decide
    simp only [h1, Bool.false_eq_true, if_false, beq_self_eq_true, if_true, Claim.get_item,
      htype, getLostItem_updateClaim, hit, Option.map_some]
    exact getLostItem_updateLostItem _ _ it _ (by rw [getLostItem_updateClaim]; exact hit) rfl
  · intro it hv htype hit
    subst hv
    have h1 : ("returned" == "verified") = false := by decide
    have h2 : ("lost" == "found") = false := by decide
    simp only [h1, h2, Bool.false_eq_true, if_false, beq_self_eq_true, if_true, Claim.get_item,
      htype, getFoundItem_updateClaim, hit, Option.map_some]
    exact getFoundItem_updateFoundItem _ _ it _ (by rw [getFoundItem_updateClaim]; exact hit) rfl
  · intro hr
    subst hr
    have h1 : ("rejected" == "verified") = false := by decide
    have h2 : ("rejected" == "returned") = false := by decide
    simp [h1, h2, DB.updateClaim]

/-- Witness for the verify-success-effects theorem: verifying the pending
claim 7 in the concrete store succeeds. -/
theorem verify_claim_success_effects_witness :
    (verify_claim dbW 5 7 (some 1) (some "verified") none).resp.success = true :=
  (verify_claim_success_effects dbW 5 7 1 adminW (some "verified") none claimW "verified"
    (by decide) (by rfl) rfl (by rfl) (by decide) (by decide) (by decide) (by decide)
    (by decide) (by rfl)).1

/-- C2: for every claim with current status s and requested status t in
{verified, returned, rejected}, `verify_claim` accepts exactly the
transitions of the table pending -> {verified, returned, rejected},
verified -> {returned}, returned -> {}, rejected -> {}; t = s is rejected as
a no-op error, any other request outside the table fails naming source and
target, and in both failure cases the store (hence the claim's stored
status) is unchanged. -/
theorem verify_claim_transition_table
    (db : DB) (now claim_id : Nat) (admin_id : Int) (admin : User)
    (stIn vdIn : Option String) (c : Claim) (t : String)
    (hcid : 1 ≤ claim_id)
    (hadmin : db.getUser admin_id = some admin)
    (hrole : admin.role = "admin")
    (hclaim : db.getClaim claim_id = some c)
    (hns : sanitize_input stIn = some t)
    (hmem : t ∈ ["verified", "returned", "rejected"])
    (hne : t ≠ "")
    (hvd : (if strTruthy (sanitize_input vdIn) then
        validate_string_field (sanitize_input vdIn) "Verification Details" 1 2000 false
      else (true, none)).1 = true) :
    (allowed_transitions "pending" = ["verified", "returned", "rejected"] ∧
      allowed_transitions "verified" = ["returned"] ∧
      allowed_transitions "returned" = [] ∧
      allowed_transitions "rejected" = []) ∧
    (t = c.status →
      (verify_claim db now claim_id (some admin_id) stIn vdIn).resp =
        Resp.err 400 ("Claim is already " ++ c.status) ∧
      (verify_claim db now claim_id (some admin_id) stIn vdIn).db = db) ∧
    (t ≠ c.status → t ∉ allowed_transitions c.status →
      (verify_claim db now claim_id (some admin_id) stIn vdIn).resp =
        Resp.err 400 ("Cannot transition claim from " ++ c.status ++ " to " ++ t) ∧
      (verify_claim db now claim_id (some admin_id) stIn vdIn).db = db) ∧
    (t ≠ c.status → t ∈ allowed_transitions c.status →
      (verify_claim db now claim_id (some admin_id) stIn vdIn).resp.success = true) := by
  have hvi : validate_integer (some (claim_id : Int)) "Claim ID" (some 1) none true = (true, none) :=
    validate_integer_pos _ (by exact_mod_cast hcid)
  refine ⟨⟨rfl, rfl, rfl, rfl⟩, ?_, ?_, ?_⟩
  · intro heq
    subst heq
    simp only [verify_claim, hvi, hadmin, hclaim, hns, validate_enum_mem _ hmem hne,
      hrole, Option.getD_some, Bool.not_true, bne_self_eq_false, Bool.false_eq_true,
      if_false, beq_self_eq_true, if_true]
    exact ⟨trivial, trivial⟩
  · intro hne2 hnot
    have hbeq : (t == c.status) = false := by simp [hne2]
    have hcont : ((allowed_transitions c.status).contains t) = false := by
      simpa using hnot
    simp only [verify_claim, hvi, hadmin, hclaim, hns, validate_enum_mem _ hmem hne,
      hrole, Option.getD_some, Bool.not_true, bne_self_eq_false, Bool.false_eq_true,
      if_false, hbeq, hcont, Bool.not_false, if_true]
    exact ⟨trivial, trivial⟩
  · intro hne2 htrans
    have hbeq : (t == c.status) = false := by simp [hne2]
    have hcont : ((allowed_transitions c.status).contains t) = true := by
      simpa using htrans
    simp only [verify_claim, hvi, hadmin, hclaim, hns, validate_enum_mem _ hmem hne,
      hrole, Option.getD_some, Bool.not_true, bne_self_eq_false, Bool.false_eq_true,
      if_false, hbeq, hcont, hvd]
    rfl

/-- Witness for the transition-table theorem: requesting `verified` on the
terminal claim 8 (status `returned`) is rejected and the store is
unchanged. -/
theorem verify_claim_transition_table_witness :
    (verify_claim dbW 5 8 (some 1) (some "verified") none).resp =
      Resp.err 400 ("Cannot transition claim from " ++ claimRetW.status ++ " to " ++ "verified") ∧
    (verify_claim dbW 5 8 (some 1) (some "verified") none).db = dbW := by
  have h := verify_claim_transition_table dbW 5 8 1 adminW (some "verified") none
    claimRetW "verified" (by decide) (by rfl) rfl (by rfl) (by decide) (by decide)
    (by decide) (by rfl)
  exact h.2.2.1 (by decide) (by decide)

/-- C9: a claim whose polymorphic id+kind reference resolves to nothing can
still be verified: `verify_claim` succeeds with 200, the claim's status is
updated and committed, and the item-side effect is silently skipped (all
item tables unchanged, no error). -/
theorem verify_claim_dangling_item :
    claimDangW.get_item dbW = none ∧
    (verify_claim dbW 5 9 (some 1) (some "verified") none).resp.success = true ∧
    (verify_claim dbW 5 9 (some 1) (some "verified") none).resp.code = 200 ∧
    (verify_claim dbW 5 9 (some 1) (some "verified") none).resp.error = none ∧
    ((verify_claim dbW 5 9 (some 1) (some "verified") none).db.getClaim 9).map Claim.status =
      some "verified" ∧
    (verify_claim dbW 5 9 (some 1) (some "verified") none).db.lost_items = dbW.lost_items ∧
    (verify_claim dbW 5 9 (some 1) (some "verified") none).db.found_items = dbW.found_items := by
  refine ⟨rfl, rfl, rfl, rfl, rfl, rfl, rfl⟩

/-- C10: the claim read operations perform no capability check: `get_claim`
and `get_user_claims` take no caller identity at all, never return 401 or
403, and for an existing claim any caller receives the full default
serialization including claimer name, claimer email and verification
details. -/
theorem claim_reads_unauthenticated
    (db : DB) (claim_id user_id : Nat) (status_q item_type_q : Option String) :
    ((get_claim db claim_id).resp.code ≠ 401 ∧ (get_claim db claim_id).resp.code ≠ 403) ∧
    ((get_user_claims db user_id status_q item_type_q).resp.code ≠ 401 ∧
      (get_user_claims db user_id status_q item_type_q).resp.code ≠ 403) ∧
    (∀ c : Claim, 1 ≤ claim_id → db.getClaim claim_id = some c →
      (get_claim db claim_id).resp = Resp.ok 200 none ∧
      (get_claim db claim_id).data = some (c.to_dict db false) ∧
      (c.to_dict db false).claimer_name = (db.getUser c.claimer_id).map (fun u => u.name) ∧
      (c.to_dict db false).claimer_email = (db.getUser c.claimer_id).map (fun u => u.email) ∧
      (c.to_dict db false).verification_details = c.verification_details) := by
  refine ⟨?_, ?_, ?_⟩
  · refine ⟨?_, ?_⟩ <;>
      (unfold get_claim
       dsimp only
       repeat' split
       all_goals simp [Resp.err, Resp.ok])
  · refine ⟨?_, ?_⟩ <;>
      (unfold get_user_claims
       dsimp only
       repeat' split
       all_goals simp [Resp.err, Resp.ok])
  · intro c hcid hc
    have hvi : validate_integer (some (claim_id : Int)) "Claim ID" (some 1) none true =
        (true, none) := validate_integer_pos _ (by exact_mod_cast hcid)
    simp only [get_claim, hvi, hc, Bool.not_true, Bool.false_eq_true, if_false]
    exact ⟨trivial, trivial, rfl, rfl, rfl⟩

/-- Witness for the unauthenticated-read theorem: claim 7 is served in full
to a caller with no identity. -/
theorem claim_reads_unauthenticated_witness :
    (get_claim dbW 7).resp = Resp.ok 200 none ∧
    (get_claim dbW 7).data = some (claimW.to_dict dbW false) := by
  have h := (claim_reads_unauthenticated dbW 7 2 none none).2.2 claimW (by decide) (by rfl)
  exact ⟨h.1, h.2.1⟩

/-! ## Media visibility -/

theorem itemMedia_to_dict_false_url (m : ItemMedia) : (m.to_dict false).url = none := rfl

theorem itemMedia_to_dict_true_url (m : ItemMedia) : (m.to_dict true).url = some m.url := rfl

theorem lost_to_dict_media_redacted (it : LostItem) (db : DB) :
    ∀ md ∈ (it.to_dict db false).media, md.url = none := by
  intro md hmd
  simp only [LostItem.to_dict] at hmd
  rcases List.mem_map.mp hmd with ⟨m, _, rfl⟩
  rfl

theorem found_to_dict_media_redacted (it : FoundItem) (db : DB) :
    ∀ md ∈ (it.to_dict db false).media, md.url = none := by
  intro md hmd
  simp only [FoundItem.to_dict] at hmd
  rcases List.mem_map.mp hmd with ⟨m, _, rfl⟩
  rfl

theorem itemDict_media_redacted (it : ItemRecord) (db : DB) :
    ∀ md ∈ (it.to_dict db false).media, md.url = none := by
  cases it with
  | lost i => exact lost_to_dict_media_redacted i db
  | found i => exact found_to_dict_media_redacted i db

theorem claim_to_dict_media_redacted (c : Claim) (db : DB) :
    ∀ md ∈ (c.to_dict db false).item_media, md.url = none := by
  intro md hmd
  simp only [Claim.to_dict] at hmd
  cases h : c.get_item db with
  | none => simp [h] at hmd
  | some it =>
    rw [h] at hmd
    rcases List.mem_map.mp hmd with ⟨m, _, rfl⟩
    rfl

theorem claim_to_dict_media_secure (c : Claim) (db : DB) :
    ∀ md ∈ (c.to_dict db true).item_media, md.url.isSome := by
  intro md hmd
  simp only [Claim.to_dict] at hmd
  cases h : c.get_item db with
  | none => simp [h] at hmd
  | some it =>
    rw [h] at hmd
    rcases List.mem_map.mp hmd with ⟨m, _, rfl⟩
    rfl

theorem itemDict_media_secure (it : ItemRecord) (db : DB) :
    ∀ md ∈ (it.to_dict db true).media, md.url.isSome := by
  cases it with
  | lost i =>
    intro md hmd
    simp only [ItemRecord.to_dict, ItemDict.media, LostItem.to_dict] at hmd
    rcases List.mem_map.mp hmd with ⟨m, _, rfl⟩
    rfl
  | found i =>
    intro md hmd
    simp only [ItemRecord.to_dict, ItemDict.media, FoundItem.to_dict] at hmd
    rcases List.mem_map.mp hmd with ⟨m, _, rfl⟩
    rfl

set_option maxHeartbeats 2000000 in
/-- C4 amended: in every default serialization the per-attachment media
entries never include the secure URL (the `url` field is absent, only
`preview_url` is present), and only `get_claim_media` serializes media
entries with the secure URL present; however the top-level legacy
`image_url` field of an item (and `item_image_url` of a claim) can expose
the primary uploaded attachment's original URL, which is the part of the
original claim that fails. -/
theorem default_serialization_media_redacted
    (db : DB) (claim_id item_id user_id : Nat) (ident : Option Int)
    (sq cq lq kq tq : Option String) (uq : Option Int) :
    (∀ d, (get_claim db claim_id).data = some d → ∀ md ∈ d.item_media, md.url = none) ∧
    (∀ ds, (get_user_claims db user_id sq tq).claims = some ds →
      ∀ d ∈ ds, ∀ md ∈ d.item_media, md.url = none) ∧
    (∀ ds, (get_all_claims db ident sq).claims = some ds →
      ∀ d ∈ ds, ∀ md ∈ d.item_media, md.url = none) ∧
    (∀ d, (get_lost_item db item_id).data = some d → ∀ md ∈ d.media, md.url = none) ∧
    (∀ d, (get_found_item db item_id).data = some d → ∀ md ∈ d.media, md.url = none) ∧
    (∀ ds, (get_lost_items db sq cq lq kq uq).items = some ds →
      ∀ d ∈ ds, ∀ md ∈ d.media, md.url = none) ∧
    (∀ ds, (get_found_items db sq cq lq kq uq).items = some ds →
      ∀ d ∈ ds, ∀ md ∈ d.media, md.url = none) ∧
    (∀ dc, (get_claim_media db ident claim_id).claim = some dc →
      ∀ md ∈ dc.item_media, md.url.isSome) ∧
    (∀ di, (get_claim_media db ident claim_id).item = some di →
      ∀ md ∈ di.media, md.url.isSome) := by
  refine ⟨?_, ?_, ?_, ?_, ?_, ?_, ?_, ?_, ?_⟩
  · intro d hd
    unfold get_claim at hd
    dsimp only at hd
    repeat' split at hd
    all_goals simp only at hd
    all_goals first
      | exact Option.noConfusion hd
      | (obtain rfl := Option.some.inj hd
         exact claim_to_dict_media_redacted _ db)
  · intro ds hds d hd
    unfold get_user_claims at hds
    dsimp only at hds
    repeat' split at hds
    all_goals simp only at hds
    all_goals first
      | exact Option.noConfusion hds
      | (obtain rfl := Option.some.inj hds
         rcases List.mem_map.mp hd with ⟨c, _, rfl⟩
         exact claim_to_dict_media_redacted c db)
  · intro ds hds d hd
    unfold get_all_claims at hds
    dsimp only at hds
    repeat' split at hds
    all_goals simp only at hds
    all_goals first
      | exact Option.noConfusion hds
      | (obtain rfl := Option.some.inj hds
         rcases List.mem_map.mp hd with ⟨c, _, rfl⟩
         exact claim_to_dict_media_redacted c db)
  · intro d hd
    unfold get_lost_item at hd
    dsimp only at hd
    repeat' split at hd
    all_goals simp only at hd
    all_goals first
      | exact Option.noConfusion hd
      | (obtain rfl := Option.some.inj hd
         exact lost_to_dict_media_redacted _ db)
  · intro d hd
    unfold get_found_item at hd
    dsimp only at hd
    repeat' split at hd
    all_goals simp only at hd
    all_goals first
      | exact Option.noConfusion hd
      | (obtain rfl := Option.some.inj hd
         exact found_to_dict_media_redacted _ db)
  · intro ds hds d hd
    unfold get_lost_items at hds
    dsimp only at hds
    repeat' split at hds
    all_goals simp only at hds
    all_goals first
      | exact Option.noConfusion hds
      | (obtain rfl := Option.some.inj hds
         rcases List.mem_map.mp hd with ⟨it, _, rfl⟩
         exact lost_to_dict_media_redacted it db)
  · intro ds hds d hd
    unfold get_found_items at hds
    dsimp only at hds
    repeat' split at hds
    all_goals simp only at hds
    all_goals first
      | exact Option.noConfusion hds
      | (obtain rfl := Option.some.inj hds
         rcases List.mem_map.mp hd with ⟨it, _, rfl⟩
         exact found_to_dict_media_redacted it db)
  · intro dc hdc
    unfold get_claim_media at hdc
    dsimp only at hdc
    repeat' split at hdc
    all_goals simp only at hdc
    all_goals first
      | exact Option.noConfusion hdc
      | (obtain rfl := Option.some.inj hdc
         exact claim_to_dict_media_secure _ db)
  · intro di hdi
    unfold get_claim_media at hdi
    dsimp only at hdi
    repeat' split at hdi
    all_goals simp only at hdi
    all_goals first
      | exact Option.noConfusion hdi
      | (obtain rfl := Option.some.inj hdi
         exact itemDict_media_secure _ db)

/-- An uploaded image whose secure (original) URL and blurred preview URL
differ. -/
def fileW : UFile :=
  { upload_result := UploadResult.ok
      { url := "https://cdn.example.com/secret-original.jpg",
        preview_url := "https://cdn.example.com/blurred-preview.jpg",
        public_id := some "pid1", format := some "jpg" } }

/-- Body of a lost-item report by Alice. -/
def reqW : ReportItemData :=
  { body_user_id := some 2, title := some "Blue wallet", description := none,
    category := none, location := none, date := none, image_url := none }

/-- The store after Alice reports a lost item with one uploaded image. -/
def dbRep : DB := (report_lost_item dbW 3 (some 2) (some reqW) [some fileW] none).db

/-- Media entries of an optional serialized item. -/
def itemDictMedia : Option ItemDict → List MediaDict
  | some d => d.media
  | none => []

/-- The top-level `image_url` field of an optional serialized item. -/
def itemDictImageUrl : Option ItemDict → Option String
  | some (ItemDict.lost d) => d.image_url
  | some (ItemDict.found d) => d.image_url
  | none => none

/-- C4 counterexample: after reporting a lost item with one uploaded image,
the default (unauthenticated) item-detail serialization contains the stored
attachment's secure original URL in its top-level `image_url` field — even
though the media entries themselves are redacted — so the default
serialization does contain a secure URL outside `get_claim_media`. -/
theorem default_serialization_contains_secure_url :
    dbRep.item_media.map ItemMedia.url = ["https://cdn.example.com/secret-original.jpg"] ∧
    dbRep.item_media.map ItemMedia.preview_url = ["https://cdn.example.com/blurred-preview.jpg"] ∧
    itemDictImageUrl (get_lost_item dbRep 11).data =
      some "https://cdn.example.com/secret-original.jpg" ∧
    (itemDictMedia (get_lost_item dbRep 11).data).map MediaDict.url = [none] ∧
    (get_lost_item dbRep 11).resp.code = 200 := by
  refine ⟨rfl, rfl, rfl, rfl, rfl⟩

/-- The serialized lost item returned by the unauthenticated detail read on
the reported item. -/
def dRepW : ItemDict :=
  (get_lost_item dbRep 11).data.getD (ItemDict.lost (lostW.to_dict dbW false))

/-- The single media entry of that serialization. -/
def mdRepW : MediaDict :=
  dRepW.media.headD
    { id := 0, media_type := "", preview_url := "", is_primary := false,
      created_at := 0, format := none, url := none }

/-- Witness for the redaction theorem: the media entry served for the
reported item carries no secure URL. -/
theorem default_serialization_media_redacted_witness : mdRepW.url = none := by
  have h := (default_serialization_media_redacted dbRep 11 11 2 (some 1)
    none none none none none none).2.2.2.1
  exact h dRepW (by rfl) mdRepW (by decide)

/-- A claim request against the already-claimed item. -/
def reqClaimW : CreateClaimData :=
  { item_id := some 20, item_type := some "lost", verification_details := none }

/-- C3 counterexample: a createClaim request whose item is already claimed
and which supplies no proof media fails with the proof-required reason, not
the item-unavailable reason (the code checks proof media first); and a
request with an unresolvable claimer identity fails 401 before the item-kind
check. -/
theorem create_claim_precheck_order_counterexample :
    lostClaimedW.status = "claimed" ∧
    (create_claim dbW 4 (some 2) (some reqClaimW) [] none).resp =
      Resp.err 400 "Please provide at least one proof image or video" ∧
    (create_claim dbW 4 (some 2) (some reqClaimW) [] none).resp.error ≠
      some ("Item is already " ++ lostClaimedW.status ++ " and cannot be claimed") ∧
    (create_claim dbW 4 none
        (some { reqClaimW with item_type := some "bogus" }) [] none).resp =
      Resp.err 401 "Invalid authentication token" := by
  refine ⟨rfl, rfl, by decide, rfl⟩

/-- C3 amended: createClaim checks its preconditions in the order: claimer
identity resolvable (401); item id and kind present; item id valid; item
kind in {lost, found}; verification details well-formed; referenced item
exists (404); at least one proof media item supplied (ProofRequired); item
not already claimed or closed (ItemUnavailable); no existing pending claim
by this claimer on this item (DuplicateClaim).  Each failure leaves the
store unchanged; in particular a request whose item is already claimed and
which supplies no proof media fails with the ProofRequired reason. -/
theorem create_claim_precheck_order
    (db : DB) (now : Nat) (claimer_id : Int) (d : CreateClaimData)
    (proof_images : List (Option UFile)) (proof_video : Option UFile) :
    ((create_claim db now none (some d) proof_images proof_video).resp =
        Resp.err 401 "Invalid authentication token" ∧
      (create_claim db now none (some d) proof_images proof_video).db = db) ∧
    ((!(intTruthy d.item_id) || !(strTruthy (sanitize_input d.item_type))) = true →
      (create_claim db now (some claimer_id) (some d) proof_images proof_video).resp =
        Resp.err 400 "item_id and item_type are required" ∧
      (create_claim db now (some claimer_id) (some d) proof_images proof_video).db = db) ∧
    (∀ e, (!(intTruthy d.item_id) || !(strTruthy (sanitize_input d.item_type))) = false →
      validate_integer d.item_id "Item ID" (some 1) none true = (false, some e) →
      (create_claim db now (some claimer_id) (some d) proof_images proof_video).resp =
        Resp.err 400 e ∧
      (create_claim db now (some claimer_id) (some d) proof_images proof_video).db = db) ∧
    (∀ e, (!(intTruthy d.item_id) || !(strTruthy (sanitize_input d.item_type))) = false →
      validate_integer d.item_id "Item ID" (some 1) none true = (true, none) →
      validate_enum (sanitize_input d.item_type) "Item Type" ["lost", "found"] true =
        (false, some e) →
      (create_claim db now (some claimer_id) (some d) proof_images proof_video).resp =
        Resp.err 400 e ∧
      (create_claim db now (some claimer_id) (some d) proof_images proof_video).db = db) ∧
    (∀ e, (!(intTruthy d.item_id) || !(strTruthy (sanitize_input d.item_type))) = false →
      validate_integer d.item_id "Item ID" (some 1) none true = (true, none) →
      validate_enum (sanitize_input d.item_type) "Item Type" ["lost", "found"] true =
        (true, none) →
      (if strTruthy (sanitize_input d.verification_details) then
        validate_string_field (sanitize_input d.verification_details)
          "Verification Details" 1 2000 false
      else (true, none)) = (false, some e) →
      (create_claim db now (some claimer_id) (some d) proof_images proof_video).resp =
        Resp.err 400 e ∧
      (create_claim db now (some claimer_id) (some d) proof_images proof_video).db = db) ∧
    ((!(intTruthy d.item_id) || !(strTruthy (sanitize_input d.item_type))) = false →
      validate_integer d.item_id "Item ID" (some 1) none true = (true, none) →
      validate_enum (sanitize_input d.item_type) "Item Type" ["lost", "found"] true =
        (true, none) →
      (if strTruthy (sanitize_input d.verification_details) then
        validate_string_field (sanitize_input d.verification_details)
          "Verification Details" 1 2000 false
      else (true, none)) = (true, none) →
      (if (sanitize_input d.item_type).getD "" == "lost" then
        (db.getLostItem (d.item_id.getD 0).toNat).map ItemRecord.lost
      else if (sanitize_input d.item_type).getD "" == "found" then
        (db.getFoundItem (d.item_id.getD 0).toNat).map ItemRecord.found
      else none) = none →
      (create_claim db now (some claimer_id) (some d) proof_images proof_video).resp =
        Resp.err 404 (pyCapitalize ((sanitize_input d.item_type).getD "") ++
          " item not found") ∧
      (create_claim db now (some claimer_id) (some d) proof_images proof_video).db = db) ∧
    (∀ it : ItemRecord,
      (!(intTruthy d.item_id) || !(strTruthy (sanitize_input d.item_type))) = false →
      validate_integer d.item_id "Item ID" (some 1) none true = (true, none) →
      validate_enum (sanitize_input d.item_type) "Item Type" ["lost", "found"] true =
        (true, none) →
      (if strTruthy (sanitize_input d.verification_details) then
        validate_string_field (sanitize_input d.verification_details)
          "Verification Details" 1 2000 false
      else (true, none)) = (true, none) →
      (if (sanitize_input d.item_type).getD "" == "lost" then
        (db.getLostItem (d.item_id.getD 0).toNat).map ItemRecord.lost
      else if (sanitize_input d.item_type).getD "" == "found" then
        (db.getFoundItem (d.item_id.getD 0).toNat).map ItemRecord.found
      else none) = some it →
      ((proof_images.isEmpty && proof_video == none) = true →
        (create_claim db now (some claimer_id) (some d) proof_images proof_video).resp =
          Resp.err 400 "Please provide at least one proof image or video" ∧
        (create_claim db now (some claimer_id) (some d) proof_images proof_video).db = db) ∧
      ((proof_images.isEmpty && proof_video == none) = false →
        (it.status == "claimed" || it.status == "closed") = true →
        (create_claim db now (some claimer_id) (some d) proof_images proof_video).resp =
          Resp.err 400 ("Item is already " ++ it.status ++ " and cannot be claimed") ∧
        (create_claim db now (some claimer_id) (some d) proof_images proof_video).db = db) ∧
      (∀ c0 : Claim, (proof_images.isEmpty && proof_video == none) = false →
        (it.status == "claimed" || it.status == "closed") = false →
        db.claims.find? (fun c =>
          (c.item_id == (d.item_id.getD 0).toNat) &&
            (c.item_type == (sanitize_input d.item_type).getD "") &&
            (c.claimer_id == claimer_id) && (c.status == "pending")) = some c0 →
        (create_claim db now (some claimer_id) (some d) proof_images proof_video).resp =
          Resp.err 400 "You already have a pending claim for this item" ∧
        (create_claim db now (some claimer_id) (some d) proof_images proof_video).db = db)) := by
  refine ⟨⟨rfl, rfl⟩, ?_, ?_, ?_, ?_, ?_, ?_⟩
  · intro h
    simp only [create_claim, h, if_true]
    exact ⟨trivial, trivial⟩
  · intro e h1 h2
    simp only [create_claim, h1, h2, Bool.false_eq_true, if_false, Bool.not_false, if_true,
      Option.getD_some]
    exact ⟨trivial, trivial⟩
  · intro e h1 h2 h3
    simp only [create_claim, h1, h2, h3, Bool.false_eq_true, if_false, Bool.not_false,
      Bool.not_true, if_true, Option.getD_some]
    exact ⟨trivial, trivial⟩
  · intro e h1 h2 h3 h4
    simp only [create_claim, h1, h2, h3, h4, Bool.false_eq_true, if_false, Bool.not_false,
      Bool.not_true, if_true, Option.getD_some]
    exact ⟨trivial, trivial⟩
  · intro h1 h2 h3 h4 h5
    simp only [create_claim, h1, h2, h3, h4, h5, Bool.false_eq_true, if_false, Bool.not_false,
      Bool.not_true, if_true, Option.getD_some]
    exact ⟨trivial, trivial⟩
  · intro it h1 h2 h3 h4 h5
    refine ⟨?_, ?_, ?_⟩
    · intro hp
      simp only [create_claim, h1, h2, h3, h4, h5, hp, Bool.false_eq_true, if_false,
        Bool.not_false, Bool.not_true, if_true, Option.getD_some]
      exact ⟨trivial, trivial⟩
    · intro hp hs
      simp only [create_claim, h1, h2, h3, h4, h5, hp, hs, Bool.false_eq_true, if_false,
        Bool.not_false, Bool.not_true, if_true, Option.getD_some]
      exact ⟨trivial, trivial⟩
    · intro c0 hp hs hdup
      simp only [create_claim, h1, h2, h3, h4, h5, hp, hs, hdup, Bool.false_eq_true, if_false,
        Bool.not_false, Bool.not_true, if_true, Option.getD_some]
      exact ⟨trivial, trivial⟩

/-- Witness for the precheck-order theorem: with proof media supplied, the
already-claimed item is rejected with the item-unavailable reason. -/
theorem create_claim_precheck_order_witness :
    (create_claim dbW 4 (some 2) (some reqClaimW) [some fileW] none).resp =
      Resp.err 400 ("Item is already " ++ (ItemRecord.lost lostClaimedW).status ++
        " and cannot be claimed") ∧
    (create_claim dbW 4 (some 2) (some reqClaimW) [some fileW] none).db = dbW := by
  have h := (create_claim_precheck_order dbW 4 2 reqClaimW [some fileW] none).2.2.2.2.2.2
    (ItemRecord.lost lostClaimedW) (by decide) (by decide) (by decide) (by decide) (by decide)
  exact h.2.1 (by decide) (by decide)

theorem commit_lost_item_cases (db : DB) (now : Nat) (it : LostItem)
    (iu : Option String) (fs : List (Option UFile)) (vf : Option UFile) :
    (commit_lost_item db now it iu fs vf).db = db ∨
      (commit_lost_item db now it iu fs vf).resp.success = true := by
  unfold commit_lost_item
  dsimp only
  repeat' split
  all_goals first | exact Or.inl rfl | exact Or.inr rfl

theorem commit_found_item_cases (db : DB) (now : Nat) (it : FoundItem)
    (iu : Option String) (fs : List (Option UFile)) (vf : Option UFile) :
    (commit_found_item db now it iu fs vf).db = db ∨
      (commit_found_item db now it iu fs vf).resp.success = true := by
  unfold commit_found_item
  dsimp only
  repeat' split
  all_goals first | exact Or.inl rfl | exact Or.inr rfl

/-- A file whose upload fails with a specific reason. -/
def fileFailW : UFile := { upload_result := UploadResult.fail "disk full" }

/-- A claim request against the open lost item. -/
def reqClaimOpenW : CreateClaimData :=
  { item_id := some 10, item_type := some "lost", verification_details := none }

set_option maxHeartbeats 4000000 in
/-- C6: media-upload failure rolls the whole operation back atomically.  Any
unsuccessful createClaim / report-item call leaves the store exactly as it
was (no claim, item or media row persists), and when the failure is an
upload failure the response carries the collaborator's specific reason. -/
theorem upload_failure_rollback
    (db : DB) (now : Nat) (ident : Option Int) (cdata : Option CreateClaimData)
    (idata : Option ReportItemData) (claimer_id : Int) (d : CreateClaimData)
    (pi : List (Option UFile)) (pv : Option UFile) :
    ((create_claim db now ident cdata pi pv).resp.success = false →
      (create_claim db now ident cdata pi pv).db = db) ∧
    ((report_lost_item db now ident idata pi pv).resp.success = false →
      (report_lost_item db now ident idata pi pv).db = db) ∧
    ((report_found_item db now ident idata pi pv).resp.success = false →
      (report_found_item db now ident idata pi pv).db = db) ∧
    (∀ it : ItemRecord, ∀ r : String,
      (!(intTruthy d.item_id) || !(strTruthy (sanitize_input d.item_type))) = false →
      validate_integer d.item_id "Item ID" (some 1) none true = (true, none) →
      validate_enum (sanitize_input d.item_type) "Item Type" ["lost", "found"] true =
        (true, none) →
      (if strTruthy (sanitize_input d.verification_details) then
        validate_string_field (sanitize_input d.verification_details)
          "Verification Details" 1 2000 false
      else (true, none)) = (true, none) →
      (if (sanitize_input d.item_type).getD "" == "lost" then
        (db.getLostItem (d.item_id.getD 0).toNat).map ItemRecord.lost
      else if (sanitize_input d.item_type).getD "" == "found" then
        (db.getFoundItem (d.item_id.getD 0).toNat).map ItemRecord.found
      else none) = some it →
      (pi.isEmpty && pv == none) = false →
      (it.status == "claimed" || it.status == "closed") = false →
      db.claims.find? (fun c =>
        (c.item_id == (d.item_id.getD 0).toNat) &&
          (c.item_type == (sanitize_input d.item_type).getD "") &&
          (c.claimer_id == claimer_id) && (c.status == "pending")) = none →
      uploadClaimImages db.next_id pi false (db.next_id + 1) = Except.error r →
      (create_claim db now (some claimer_id) (some d) pi pv).resp =
        Resp.err 400 ("Image upload failed: " ++ r) ∧
      (create_claim db now (some claimer_id) (some d) pi pv).db = db) ∧
    (∀ it : ItemRecord, ∀ r : String, ∀ imgs : List ClaimMedia, ∀ ps : Bool, ∀ nid : Nat,
      ∀ vf : UFile,
      (!(intTruthy d.item_id) || !(strTruthy (sanitize_input d.item_type))) = false →
      validate_integer d.item_id "Item ID" (some 1) none true = (true, none) →
      validate_enum (sanitize_input d.item_type) "Item Type" ["lost", "found"] true =
        (true, none) →
      (if strTruthy (sanitize_input d.verification_details) then
        validate_string_field (sanitize_input d.verification_details)
          "Verification Details" 1 2000 false
      else (true, none)) = (true, none) →
      (if (sanitize_input d.item_type).getD "" == "lost" then
        (db.getLostItem (d.item_id.getD 0).toNat).map ItemRecord.lost
      else if (sanitize_input d.item_type).getD "" == "found" then
        (db.getFoundItem (d.item_id.getD 0).toNat).map ItemRecord.found
      else none) = some it →
      (pi.isEmpty && pv == none) = false →
      (it.status == "claimed" || it.status == "closed") = false →
      db.claims.find? (fun c =>
        (c.item_id == (d.item_id.getD 0).toNat) &&
          (c.item_type == (sanitize_input d.item_type).getD "") &&
          (c.claimer_id == claimer_id) && (c.status == "pending")) = none →
      uploadClaimImages db.next_id pi false (db.next_id + 1) = Except.ok (imgs, ps, nid) →
      pv = some vf →
      upload_media vf = UploadResult.fail r →
      (create_claim db now (some claimer_id) (some d) pi pv).resp =
        Resp.err 400 ("Video upload failed: " ++ r) ∧
      (create_claim db now (some claimer_id) (some d) pi pv).db = db) := by
  have Hc : (create_claim db now ident cdata pi pv).db = db ∨
      (create_claim db now ident cdata pi pv).resp.success = true := by
    unfold create_claim
    dsimp only
    repeat' split
    all_goals first | exact Or.inl rfl | exact Or.inr rfl
  have Hl : (report_lost_item db now ident idata pi pv).db = db ∨
      (report_lost_item db now ident idata pi pv).resp.success = true := by
    unfold report_lost_item
    dsimp only
    repeat' split
    all_goals first
      | exact Or.inl rfl
      | exact Or.inr rfl
      | exact commit_lost_item_cases _ _ _ _ _ _
  have Hf : (report_found_item db now ident idata pi pv).db = db ∨
      (report_found_item db now ident idata pi pv).resp.success = true := by
    unfold report_found_item
    dsimp only
    repeat' split
    all_goals first
      | exact Or.inl rfl
      | exact Or.inr rfl
      | exact commit_found_item_cases _ _ _ _ _ _
  refine ⟨?_, ?_, ?_, ?_, ?_⟩
  · intro h
    rcases Hc with h1 | h1
    · exact h1
    · rw [h1] at h; exact absurd h (by simp)
  · intro h
    rcases Hl with h1 | h1
    · exact h1
    · rw [h1] at h; exact absurd h (by simp)
  · intro h
    rcases Hf with h1 | h1
    · exact h1
    · rw [h1] at h; exact absurd h (by simp)
  · intro it r h1 h2 h3 h4 h5 hp hs hdup hupl
    simp only [create_claim, h1, h2, h3, h4, h5, hp, hs, hdup, hupl, Bool.false_eq_true,
      if_false, Bool.not_false, Bool.not_true, if_true, Option.getD_some]
    exact ⟨trivial, trivial⟩
  · intro it r imgs ps nid vf h1 h2 h3 h4 h5 hp hs hdup hupl hpv hvf
    subst hpv
    simp only [create_claim, h1, h2, h3, h4, h5, hp, hs, hdup, hupl, hvf,
      Bool.false_eq_true, if_false, Bool.not_false, Bool.not_true, if_true,
      Option.getD_some]
    exact ⟨trivial, trivial⟩

/-- Witness for the rollback theorem: a failing image upload surfaces its
reason and leaves the store unchanged. -/
theorem upload_failure_rollback_witness :
    (create_claim dbW 4 (some 5) (some reqClaimOpenW) [some fileFailW] none).resp =
      Resp.err 400 ("Image upload failed: " ++ "disk full") ∧
    (create_claim dbW 4 (some 5) (some reqClaimOpenW) [some fileFailW] none).db = dbW := by
  have h := (upload_failure_rollback dbW 4 (some 5) (some reqClaimOpenW) none 5 reqClaimOpenW
    [some fileFailW] none).2.2.2.1 (ItemRecord.lost lostW) "disk full"
    (by decide) (by decide) (by decide) (by decide) (by decide) (by decide) (by decide)
    (by decide) (by rfl)
  exact h

/-- Structure of a fully successful claim-image upload loop: one media row
per valid (non-falsy) file slot, the primary flag set on the first uploaded
row exactly when no earlier media was primary, and the primary-seen flag
propagated. -/
theorem uploadClaimImages_ok_spec (cid : Nat) :
    ∀ (files : List (Option UFile)) (ps : Bool) (nid : Nat)
      (ms : List ClaimMedia) (ps' : Bool) (nid' : Nat),
      uploadClaimImages cid files ps nid = Except.ok (ms, ps', nid') →
      ms.length = files.countP (fun f => f.isSome) ∧
      ps' = (ps || !ms.isEmpty) ∧
      ms.countP (fun m => m.is_primary) = (if ps || ms.isEmpty then 0 else 1) ∧
      (ps = false → ∀ m0 ∈ ms.head?, m0.is_primary = true) := by
  intro files
  induction files with
  | nil =>
    intro ps nid ms ps' nid' h
    simp only [uploadClaimImages] at h
    obtain ⟨rfl, rfl, rfl⟩ : ([] : List ClaimMedia) = ms ∧ ps = ps' ∧ nid = nid' := by
      simpa using h
    simp
  | cons f rest ih =>
    intro ps nid ms ps' nid' h
    cases f with
    | none =>
      simp only [uploadClaimImages] at h
      have hr := ih ps nid ms ps' nid' h
      simpa using hr
    | some uf =>
      simp only [uploadClaimImages] at h
      cases hu : upload_media uf with
      | fail r => rw [hu] at h; exact absurd h (by simp)
      | ok up =>
        rw [hu] at h
        cases hr : uploadClaimImages cid rest true (nid + 1) with
        | error e => rw [hr] at h; exact absurd h (by simp [Except.map])
        | ok tr =>
          obtain ⟨msr, psr, nidr⟩ := tr
          rw [hr] at h
          simp only [Except.map] at h
          obtain ⟨hms, hps, hnid⟩ : _ :: msr = ms ∧ psr = ps' ∧ nidr = nid' := by
            simpa using h
          have hrec := ih true (nid + 1) msr psr nidr hr
          subst hms hps hnid
          refine ⟨by simp [hrec.1], ?_, ?_, ?_⟩
          · rw [hrec.2.1]
            simp
          · have hcount := hrec.2.2.1
            simp only [if_true, Bool.true_or] at hcount
            simp [List.countP_cons, hcount]
            cases ps <;> simp
          · intro hps0
            subst hps0
            intro m0 hm0
            simp only [List.head?_cons, Option.mem_def, Option.some.injEq] at hm0
            subst hm0
            rfl

/-- Structure of a fully successful item-image upload loop: one media row
per valid slot; a row is primary exactly when its running submission index
is zero, so starting from index 0 there is a primary row precisely when the
first submitted slot is a valid file. -/
theorem uploadItemImages_ok_spec (iid : Nat) (ty : String) (now : Nat) :
    ∀ (files : List (Option UFile)) (idx nid : Nat)
      (ms : List ItemMedia) (pu : Option String) (nid' : Nat),
      uploadItemImages iid ty now files idx nid = Except.ok (ms, pu, nid') →
      ms.length = files.countP (fun f => f.isSome) ∧
      ms.countP (fun m => m.is_primary) =
        (if idx = 0 then
          (match files.head? with
           | some (some _) => 1
           | _ => 0)
        else 0) := by
  intro files
  induction files with
  | nil =>
    intro idx nid ms pu nid' h
    simp only [uploadItemImages] at h
    obtain ⟨rfl, rfl, rfl⟩ : ([] : List ItemMedia) = ms ∧ (none : Option String) = pu ∧
        nid = nid' := by simpa using h
    simp
  | cons f rest ih =>
    intro idx nid ms pu nid' h
    cases f with
    | none =>
      simp only [uploadItemImages] at h
      have hr := ih (idx + 1) nid ms pu nid' h
      refine ⟨by simpa using hr.1, ?_⟩
      rw [hr.2]
      simp
    | some uf =>
      simp only [uploadItemImages] at h
      cases hu : upload_media uf with
      | fail r => rw [hu] at h; exact absurd h (by simp)
      | ok up =>
        rw [hu] at h
        cases hr : uploadItemImages iid ty now rest (idx + 1) (nid + 1) with
        | error e => rw [hr] at h; exact absurd h (by simp [Except.map])
        | ok tr =>
          obtain ⟨msr, pur, nidr⟩ := tr
          rw [hr] at h
          simp only [Except.map] at h
          obtain ⟨hms, hpu, hnid⟩ : _ :: msr = ms ∧ _ = pu ∧ nidr = nid' := by
            simpa using h
          have hrec := ih (idx + 1) (nid + 1) msr pur nidr hr
          subst hms hnid
          refine ⟨by simp [hrec.1], ?_⟩
          have hcount := hrec.2
          simp only [Nat.succ_ne_zero, if_false] at hcount
          simp [List.countP_cons, hcount]

set_option maxHeartbeats 2000000 in
/-- C5 amended: a successful createClaim whose N proof-image slots are all
valid persists exactly N claim-media rows with exactly one marked primary,
namely the first uploaded one.  For item creation at most one of the newly
attached rows owned by the new item is primary, but the primary flag is tied
to submission slot 0 (`is_primary = (index == 0)` over all slots, skipped
ones included): a primary row exists among the uploaded images precisely
when the first submitted slot is a valid file, so when that slot is empty no
uploaded image is marked primary. -/
theorem media_primary_invariant
    (db : DB) (now : Nat) (claimer_id : Int) (d : CreateClaimData)
    (pi : List (Option UFile)) (pv : Option UFile)
    (item : LostItem) (iu : Option String) :
    (∀ it : ItemRecord, ∀ ms : List ClaimMedia, ∀ ps' : Bool, ∀ nid' : Nat,
      (!(intTruthy d.item_id) || !(strTruthy (sanitize_input d.item_type))) = false →
      validate_integer d.item_id "Item ID" (some 1) none true = (true, none) →
      validate_enum (sanitize_input d.item_type) "Item Type" ["lost", "found"] true =
        (true, none) →
      (if strTruthy (sanitize_input d.verification_details) then
        validate_string_field (sanitize_input d.verification_details)
          "Verification Details" 1 2000 false
      else (true, none)) = (true, none) →
      (if (sanitize_input d.item_type).getD "" == "lost" then
        (db.getLostItem (d.item_id.getD 0).toNat).map ItemRecord.lost
      else if (sanitize_input d.item_type).getD "" == "found" then
        (db.getFoundItem (d.item_id.getD 0).toNat).map ItemRecord.found
      else none) = some it →
      (pi.isEmpty && pv == none) = false →
      (it.status == "claimed" || it.status == "closed") = false →
      db.claims.find? (fun c =>
        (c.item_id == (d.item_id.getD 0).toNat) &&
          (c.item_type == (sanitize_input d.item_type).getD "") &&
          (c.claimer_id == claimer_id) && (c.status == "pending")) = none →
      uploadClaimImages db.next_id pi false (db.next_id + 1) = Except.ok (ms, ps', nid') →
      pv = none →
      (∀ f ∈ pi, f.isSome = true) → pi ≠ [] →
      (create_claim db now (some claimer_id) (some d) pi pv).resp.success = true ∧
      (create_claim db now (some claimer_id) (some d) pi pv).db.claim_media =
        db.claim_media ++ ms ∧
      ms.length = pi.length ∧
      ms.countP (fun m => m.is_primary) = 1 ∧
      (∀ m0 ∈ ms.head?, m0.is_primary = true)) ∧
    (∀ ms : List ItemMedia, ∀ pu : Option String, ∀ nid' : Nat,
      uploadItemImages item.id "lost" now pi 0 (db.next_id + 1) = Except.ok (ms, pu, nid') →
      ms.countP (fun m => m.is_primary) =
        (match pi.head? with
         | some (some _) => 1
         | _ => 0)) ∧
    (db.lostMediaOf item.id = [] →
      ((commit_lost_item db now item iu pi pv).db.lostMediaOf item.id).countP
        (fun m => m.is_primary) ≤ 1) := by
  refine ⟨?_, ?_, ?_⟩
  · intro it ms ps' nid' h1 h2 h3 h4 h5 hp hs hdup hupl hpv hvalid hne
    subst hpv
    have hspec := uploadClaimImages_ok_spec db.next_id pi false (db.next_id + 1)
      ms ps' nid' hupl
    have hlen : ms.length = pi.length := by
      rw [hspec.1]
      exact List.countP_eq_length.mpr hvalid
    have hmsne : ms.isEmpty = false := by
      cases hms0 : ms with
      | nil =>
        exfalso
        rw [hms0] at hlen
        exact hne (List.length_eq_zero.mp hlen.symm)
      | cons a as => rfl
    refine ⟨?_, ?_, hlen, ?_, ?_⟩
    · simp only [create_claim, h1, h2, h3, h4, h5, hp, hs, hdup, hupl,
        Bool.false_eq_true, if_false, Bool.not_false, Bool.not_true, if_true,
        Option.getD_some]
      try rfl
    · simp only [create_claim, h1, h2, h3, h4, h5, hp, hs, hdup, hupl,
        Bool.false_eq_true, if_false, Bool.not_false, Bool.not_true, if_true,
        Option.getD_some]
      try rfl
    · rw [hspec.2.2.1, hmsne]
      simp
    · exact hspec.2.2.2 rfl
  · intro ms pu nid' hupl
    exact (uploadItemImages_ok_spec item.id "lost" now pi 0 (db.next_id + 1)
      ms pu nid' hupl).2
  · intro hpre
    have hpre' : db.item_media.filter
        (fun m => m.item_id == item.id && m.item_type == "lost") = [] := hpre
    unfold commit_lost_item
    cases hupl : uploadItemImages item.id "lost" now pi 0 (db.next_id + 1) with
    | error r =>
      simp only [DB.lostMediaOf, hpre']
      simp
    | ok tr =>
      obtain ⟨imgs, pu, nid⟩ := tr
      have hspec := uploadItemImages_ok_spec item.id "lost" now pi 0 (db.next_id + 1)
        imgs pu nid hupl
      have himgs : imgs.countP (fun m => m.is_primary) ≤ 1 := by
        rw [hspec.2]
        cases hh : pi.head? with
        | none => simp
        | some o => cases o <;> simp
      have himgsf : (imgs.filter
          (fun m => m.item_id == item.id && m.item_type == "lost")).countP
          (fun m => m.is_primary) ≤ 1 :=
        le_trans (List.Sublist.countP_le _ (List.filter_sublist _)) himgs
      dsimp only
      by_cases hleg : (strTruthy iu && pi.isEmpty) = true
      · have hpinil : pi = [] := by
          have h' := hleg
          rw [Bool.and_eq_true] at h'
          exact List.isEmpty_iff.mp h'.2
        subst hpinil
        have himgs0 : imgs = [] := by
          have h0 := hspec.1
          simpa using h0
        subst himgs0
        cases pv with
        | none =>
          simp only [hleg, if_true, DB.lostMediaOf]
          simp [List.filter_append, hpre', List.countP_append, List.countP_cons]
        | some vf =>
          cases hu : upload_media vf with
          | fail r =>
            simp only [hleg, if_true, hu, DB.lostMediaOf, hpre']
            simp
          | ok up =>
            simp only [hleg, if_true, hu, DB.lostMediaOf]
            simp [List.filter_append, hpre', List.countP_append, List.countP_cons]
      · have hleg2 : (strTruthy iu && pi.isEmpty) = false := by
          simpa using hleg
        cases pv with
        | none =>
          simp only [hleg2, Bool.false_eq_true, if_false, DB.lostMediaOf]
          simp only [List.filter_append, hpre', List.nil_append, List.countP_append]
          simpa using himgsf
        | some vf =>
          cases hu : upload_media vf with
          | fail r =>
            simp only [hleg2, Bool.false_eq_true, if_false, hu, DB.lostMediaOf, hpre']
            simp
          | ok up =>
            simp only [hleg2, Bool.false_eq_true, if_false, hu, DB.lostMediaOf]
            simp only [List.filter_append, hpre', List.nil_append, List.countP_append]
            have hvm : (List.filter
                (fun m => m.item_id == item.id && m.item_type == "lost")
                ([] : List ItemMedia)).countP (fun m => m.is_primary) = 0 := rfl
            simp [List.countP_cons]
            omega

/-- C5 counterexample: reporting a lost item whose first submitted file slot
is empty (falsy) and whose second slot uploads successfully persists exactly
one media row, and that row — the first successfully uploaded image — is NOT
marked primary, because the primary flag is tied to submission index 0. -/
theorem primary_media_counterexample :
    (report_lost_item dbW 3 (some 2) (some reqW) [none, some fileW] none).resp.success =
      true ∧
    (report_lost_item dbW 3 (some 2) (some reqW) [none, some fileW] none).db.item_media.map
        (fun m => m.is_primary) =
      [false] := by
  exact ⟨rfl, rfl⟩

/-- The single claim-media row produced by the witness run. -/
def cmW : ClaimMedia :=
  { id := 12, claim_id := 11, media_type := "image",
    url := "https://cdn.example.com/secret-original.jpg",
    preview_url := "https://cdn.example.com/blurred-preview.jpg",
    public_id := some "pid1", format := some "jpg", is_primary := true }

/-- Witness for the primary-media theorem: a claim created with one valid
proof image persists exactly that row, marked primary. -/
theorem media_primary_invariant_witness :
    (create_claim dbW 4 (some 5) (some reqClaimOpenW) [some fileW] none).db.claim_media =
      dbW.claim_media ++ [cmW] ∧
    List.countP (fun m => m.is_primary) [cmW] = 1 := by
  have h := (media_primary_invariant dbW 4 5 reqClaimOpenW [some fileW] none lostW none).1
    (ItemRecord.lost lostW) [cmW] true 13
    (by decide) (by decide) (by decide) (by decide) (by decide) (by decide) (by decide)
    (by decide) (by rfl) rfl (by decide) (by decide)
  exact ⟨h.2.1, h.2.2.2.1⟩

/-! ## The pending-claim uniqueness invariant -/

/-- The key of the duplicate-pending-claim check: same item (id + kind tag),
same claimer, status pending. -/
def pendingKey (i : Nat) (t : String) (cl : Int) (c : Claim) : Bool :=
  (c.item_id == i) && (c.item_type == t) && (c.claimer_id == cl) && (c.status == "pending")

/-- Number of pending claims for one (item, claimer) key. -/
def pendingCount (cs : List Claim) (i : Nat) (t : String) (cl : Int) : Nat :=
  cs.countP (pendingKey i t cl)

/-- At most one pending claim per (item, claimer) pair. -/
def pendingUnique (db : DB) : Prop :=
  ∀ (i : Nat) (t : String) (cl : Int), pendingCount db.claims i t cl ≤ 1

theorem pendingKey_false_of_status {c1 : Claim} (hc1 : (c1.status == "pending") = false)
    (i : Nat) (t : String) (cl : Int) : pendingKey i t cl c1 = false := by
  simp [pendingKey, hc1]

/-- Replacing one claim by a non-pending claim never increases a pending
count. -/
theorem pendingCount_replace_le (c1 : Claim) (hc1 : (c1.status == "pending") = false)
    (i : Nat) (t : String) (cl : Int) :
    ∀ cs : List Claim,
      pendingCount (cs.map (fun x => if x.id == c1.id then c1 else x)) i t cl ≤
        pendingCount cs i t cl := by
  intro cs
  induction cs with
  | nil => simp [pendingCount]
  | cons a as ih =>
    have ih' := ih
    simp only [pendingCount] at ih' ⊢
    by_cases hb : (a.id == c1.id) = true
    · have h1 : (if a.id == c1.id then c1 else a) = c1 := by simp [hb]
      rw [List.map_cons, h1, List.countP_cons, List.countP_cons,
        pendingKey_false_of_status hc1]
      simp only [Bool.false_eq_true, if_false]
      omega
    · have h1 : (if a.id == c1.id then c1 else a) = a := by simp [hb]
      rw [List.map_cons, h1, List.countP_cons, List.countP_cons]
      omega

/-- Appending a fresh pending claim whose key had no pending claim keeps
every pending count at most one. -/
theorem pendingCount_append_le (cs : List Claim) (newc : Claim)
    (i0 : Nat) (t0 : String) (c0 : Int)
    (hfi : newc.item_id = i0) (hft : newc.item_type = t0) (hfc : newc.claimer_id = c0)
    (hfs : newc.status = "pending")
    (hdup : cs.find? (fun c =>
      (c.item_id == i0) && (c.item_type == t0) && (c.claimer_id == c0) &&
        (c.status == "pending")) = none)
    (i : Nat) (t : String) (cl : Int) (hinv : pendingCount cs i t cl ≤ 1) :
    pendingCount (cs ++ [newc]) i t cl ≤ 1 := by
  by_cases hk : pendingKey i t cl newc = true
  · have hk' : i0 = i ∧ t0 = t ∧ c0 = cl := by
      simp only [pendingKey, hfi, hft, hfc, hfs, Bool.and_eq_true, beq_iff_eq] at hk
      exact ⟨hk.1.1.1, hk.1.1.2, hk.1.2⟩
    obtain ⟨rfl, rfl, rfl⟩ := hk'
    have hzero : pendingCount cs i0 t0 c0 = 0 := by
      rw [pendingCount, List.countP_eq_zero]
      intro c hc
      have := List.find?_eq_none.mp hdup c hc
      simpa [pendingKey] using this
    rw [pendingCount, List.countP_append]
    rw [pendingCount] at hzero
    rw [hzero]
    simp [List.countP_cons, hk]
  · have hk2 : pendingKey i t cl newc = false := by
      simpa using hk
    rw [pendingCount, List.countP_append]
    rw [pendingCount] at hinv
    simp [List.countP_cons, hk2]
    exact hinv

/-- The status enum accepted by verify_claim never contains `pending`. -/
theorem validate_enum_status_ne_pending (v : Option String)
    (h : ¬((!(validate_enum v "Status" ["verified", "returned", "rejected"] true).1) = true)) :
    ((v.getD "" == "pending") = false) := by
  have h1 : (validate_enum v "Status" ["verified", "returned", "rejected"] true).1 = true := by
    revert h
    cases (validate_enum v "Status" ["verified", "returned", "rejected"] true).1 <;> simp
  by_contra hcon
  have heq : v.getD "" = "pending" := by
    have hpend : (v.getD "" == "pending") = true := by
      revert hcon
      cases (v.getD "" == "pending") <;> simp
    simpa using hpend
  unfold validate_enum at h1
  by_cases ht : strTruthy v = true
  · rw [if_neg (by simp [ht])] at h1
    rw [if_pos (by simp [ht, heq])] at h1
    simp at h1
  · have ht2 : strTruthy v = false := by simpa using ht
    rw [if_pos (by simp [ht2])] at h1
    simp at h1

/-- The claims table of a committed item-report is the old one. -/
theorem commit_lost_item_claims (db : DB) (now : Nat) (it : LostItem)
    (iu : Option String) (fs : List (Option UFile)) (vf : Option UFile) :
    (commit_lost_item db now it iu fs vf).db.claims = db.claims := by
  unfold commit_lost_item
  dsimp only
  repeat' split
  all_goals rfl

theorem commit_found_item_claims (db : DB) (now : Nat) (it : FoundItem)
    (iu : Option String) (fs : List (Option UFile)) (vf : Option UFile) :
    (commit_found_item db now it iu fs vf).db.claims = db.claims := by
  unfold commit_found_item
  dsimp only
  repeat' split
  all_goals rfl

/-- The committed store of a successful verify keeps every pending count
bounded: its claims table is the map-replacement by a non-pending claim. -/
theorem pendingCount_db2_le (db : DB) (c1 : Claim)
    (hc1 : (c1.status == "pending") = false) (now : Nat)
    (i : Nat) (t : String) (cl : Int) (ns : String)
    (hinv1 : pendingCount db.claims i t cl ≤ 1) :
    pendingCount
      ((if (ns == "verified") = true then
        match c1.get_item (db.updateClaim c1) with
        | some (ItemRecord.lost it) =>
          (db.updateClaim c1).updateLostItem { it with status := "claimed", updated_at := now }
        | some (ItemRecord.found it) =>
          (db.updateClaim c1).updateFoundItem { it with status := "claimed", updated_at := now }
        | none => db.updateClaim c1
      else if (ns == "returned") = true then
        match c1.get_item (db.updateClaim c1) with
        | some (ItemRecord.lost it) =>
          (db.updateClaim c1).updateLostItem { it with status := "closed", updated_at := now }
        | some (ItemRecord.found it) =>
          (db.updateClaim c1).updateFoundItem { it with status := "closed", updated_at := now }
        | none => db.updateClaim c1
      else db.updateClaim c1).claims) i t cl ≤ 1 := by
  have hmap := pendingCount_replace_le c1 hc1 i t cl db.claims
  repeat' split
  all_goals exact le_trans hmap hinv1

set_option maxHeartbeats 32000000 in
/-- C7: at most one pending claim per (item, claimer) pair.  createClaim
refuses a duplicate pending claim on the same (id, kind-tag, claimer) key
and appends a single fresh pending claim otherwise; verifyClaim only ever
rewrites a claim's status to a non-pending value; the item-report routes do
not touch the claims table.  Hence the invariant is preserved by every
mutating operation under sequential execution. -/
theorem pending_claim_unique_preserved
    (db : DB) (now : Nat) (ident : Option Int) (cdata : Option CreateClaimData)
    (idata : Option ReportItemData) (pi : List (Option UFile)) (pv : Option UFile)
    (claim_id : Nat) (stIn vdIn : Option String)
    (hinv : pendingUnique db) :
    pendingUnique (create_claim db now ident cdata pi pv).db ∧
    pendingUnique (verify_claim db now claim_id ident stIn vdIn).db ∧
    pendingUnique (report_lost_item db now ident idata pi pv).db ∧
    pendingUnique (report_found_item db now ident idata pi pv).db := by
  refine ⟨?_, ?_, ?_, ?_⟩
  · intro i t cl
    unfold create_claim
    dsimp only
    repeat' split
    all_goals dsimp only
    all_goals first
      | exact hinv i t cl
      | exact pendingCount_append_le _ _ _ _ _ rfl rfl rfl rfl (by assumption) i t cl
          (hinv i t cl)
  · intro i t cl
    by_cases g1 : (!(validate_integer (some (claim_id : Int)) "Claim ID"
        (some 1) none true).1) = true
    · simp only [verify_claim, g1, if_true]
      exact hinv i t cl
    · cases ident with
      | none =>
        simp only [verify_claim, if_neg g1]
        exact hinv i t cl
      | some aid =>
        cases hu : db.getUser aid with
        | none =>
          simp only [verify_claim, if_neg g1, hu]
          exact hinv i t cl
        | some admin_user =>
          by_cases g2 : (admin_user.role != "admin") = true
          · simp only [verify_claim, if_neg g1, hu, g2, if_true]
            exact hinv i t cl
          · cases hc : db.getClaim claim_id with
            | none =>
              simp only [verify_claim, if_neg g1, hu, if_neg g2, hc]
              exact hinv i t cl
            | some claim =>
              by_cases g3 : (!(validate_enum (sanitize_input stIn) "Status"
                  ["verified", "returned", "rejected"] true).1) = true
              · simp only [verify_claim, if_neg g1, hu, if_neg g2, hc, g3, if_true]
                exact hinv i t cl
              · by_cases g4 : (((sanitize_input stIn).getD "" == claim.status)) = true
                · simp only [verify_claim, if_neg g1, hu, if_neg g2, hc, if_neg g3, g4,
                    if_true]
                  exact hinv i t cl
                · by_cases g5 : (!(allowed_transitions claim.status).contains
                      ((sanitize_input stIn).getD "")) = true
                  · simp only [verify_claim, if_neg g1, hu, if_neg g2, hc, if_neg g3,
                      if_neg g4, g5, if_true]
                    exact hinv i t cl
                  · by_cases g6 : (!(if strTruthy (sanitize_input vdIn) then
                        validate_string_field (sanitize_input vdIn)
                          "Verification Details" 1 2000 false
                      else (true, none)).1) = true
                    · simp only [verify_claim, if_neg g1, hu, if_neg g2, hc, if_neg g3,
                        if_neg g4, if_neg g5, g6, if_true]
                      exact hinv i t cl
                    · simp only [verify_claim, if_neg g1, hu, if_neg g2, hc, if_neg g3,
                        if_neg g4, if_neg g5, if_neg g6]
                      exact pendingCount_db2_le db _
                        (validate_enum_status_ne_pending _ g3) now i t cl _
                        (hinv i t cl)
  · intro i t cl
    have hc : (report_lost_item db now ident idata pi pv).db.claims = db.claims := by
      unfold report_lost_item
      dsimp only
      repeat' split
      all_goals first | rfl | exact commit_lost_item_claims _ _ _ _ _ _
    rw [pendingUnique] at hinv
    show pendingCount (report_lost_item db now ident idata pi pv).db.claims i t cl ≤ 1
    rw [hc]
    exact hinv i t cl
  · intro i t cl
    have hc : (report_found_item db now ident idata pi pv).db.claims = db.claims := by
      unfold report_found_item
      dsimp only
      repeat' split
      all_goals first | rfl | exact commit_found_item_claims _ _ _ _ _ _
    rw [pendingUnique] at hinv
    show pendingCount (report_found_item db now ident idata pi pv).db.claims i t cl ≤ 1
    rw [hc]
    exact hinv i t cl

/-- A store with a single pending claim, trivially satisfying the
uniqueness invariant. -/
def dbP : DB :=
  { users := [adminW, aliceW], lost_items := [lostW], found_items := [],
    item_media := [], claims := [claimW], claim_media := [], next_id := 11 }

/-- Witness for the pending-uniqueness theorem: a store with one pending
claim satisfies the invariant and still does after a verify call. -/
theorem pending_claim_unique_preserved_witness :
    pendingUnique (verify_claim dbP 5 7 (some 1) (some "verified") none).db := by
  have hbase : pendingUnique dbP := by
    intro i t cl
    exact le_trans (List.countP_le_length _) (by decide)
  exact (pending_claim_unique_preserved dbP 5 (some 1) none none [] none 7
    (some "verified") none hbase).2.1

/-! ## The item-status invariant -/

/-- Every stored item's status lies in its kind's declared status set. -/
def itemStatusOK (db : DB) : Prop :=
  (∀ it ∈ db.lost_items, it.status ∈ (["pending", "claimed", "closed"] : List String)) ∧
  (∀ it ∈ db.found_items, it.status ∈ (["available", "claimed", "closed"] : List String))

/-- Replacing one row by a row whose status is in the set preserves
set-membership of all statuses. -/
theorem status_map_replace {α : Type} (idf : α → Nat) (stf : α → String)
    (l : List α) (a1 : α) (j : Nat) (S : List String) (h1 : stf a1 ∈ S)
    (hall : ∀ x ∈ l, stf x ∈ S) :
    ∀ x ∈ l.map (fun x => if idf x == j then a1 else x), stf x ∈ S := by
  intro x hx
  rcases List.mem_map.mp hx with ⟨y, hy, rfl⟩
  by_cases hb : (idf y == j) = true
  · simp only [hb, if_true]
    exact h1
  · simp only [hb, if_false]
    exact hall y hy

/-- The committed store of a successful verify satisfies the status
invariant: the only item mutation writes `claimed` or `closed`, which lie in
both declared status sets. -/
theorem itemStatusOK_db2 (db : DB) (c1 : Claim) (now : Nat) (ns : String)
    (hinv : itemStatusOK db) :
    itemStatusOK
      (if (ns == "verified") = true then
        match c1.get_item (db.updateClaim c1) with
        | some (ItemRecord.lost it) =>
          (db.updateClaim c1).updateLostItem { it with status := "claimed", updated_at := now }
        | some (ItemRecord.found it) =>
          (db.updateClaim c1).updateFoundItem { it with status := "claimed", updated_at := now }
        | none => db.updateClaim c1
      else if (ns == "returned") = true then
        match c1.get_item (db.updateClaim c1) with
        | some (ItemRecord.lost it) =>
          (db.updateClaim c1).updateLostItem { it with status := "closed", updated_at := now }
        | some (ItemRecord.found it) =>
          (db.updateClaim c1).updateFoundItem { it with status := "closed", updated_at := now }
        | none => db.updateClaim c1
      else db.updateClaim c1) := by
  repeat' split
  all_goals refine ⟨?_, ?_⟩
  all_goals dsimp only [DB.updateClaim, DB.updateLostItem, DB.updateFoundItem]
  all_goals first
    | exact hinv.1
    | exact hinv.2
    | (refine status_map_replace (fun x => x.id) (fun x => x.status) db.lost_items _ _ _
        ?_ hinv.1
       simp)
    | (refine status_map_replace (fun x => x.id) (fun x => x.status) db.found_items _ _ _
        ?_ hinv.2
       simp)

/-- The committed item-report run only appends items carrying the status of
the freshly constructed record, and никогда touches the other table. -/
theorem commit_lost_item_items (db : DB) (now : Nat) (item : LostItem)
    (iu : Option String) (fs : List (Option UFile)) (vf : Option UFile) :
    (commit_lost_item db now item iu fs vf).db.found_items = db.found_items ∧
    ∃ newL, (commit_lost_item db now item iu fs vf).db.lost_items = db.lost_items ++ newL ∧
      ∀ it2 ∈ newL, it2.status = item.status := by
  unfold commit_lost_item
  dsimp only
  repeat' split
  all_goals first
    | (refine ⟨rfl, ⟨[], ?_, ?_⟩⟩
       · simp
       · simp)
    | (refine ⟨rfl, ⟨[_], rfl, ?_⟩⟩
       intro it2 h2
       rcases List.mem_singleton.mp h2 with rfl
       rfl)

theorem commit_found_item_items (db : DB) (now : Nat) (item : FoundItem)
    (iu : Option String) (fs : List (Option UFile)) (vf : Option UFile) :
    (commit_found_item db now item iu fs vf).db.lost_items = db.lost_items ∧
    ∃ newF, (commit_found_item db now item iu fs vf).db.found_items = db.found_items ++ newF ∧
      ∀ it2 ∈ newF, it2.status = item.status := by
  unfold commit_found_item
  dsimp only
  repeat' split
  all_goals first
    | (refine ⟨rfl, ⟨[], ?_, ?_⟩⟩
       · simp
       · simp)
    | (refine ⟨rfl, ⟨[_], rfl, ?_⟩⟩
       intro it2 h2
       rcases List.mem_singleton.mp h2 with rfl
       rfl)

set_option maxHeartbeats 32000000 in
/-- C8: every item's status stays in its kind's declared status set (lost:
pending/claimed/closed, found: available/claimed/closed); items are created
in the initial open state (`pending` for lost, `available` for found); and
no operation other than verifyClaim's effect changes any item's status:
createClaim leaves both item tables untouched and the report routes only
append freshly created items. -/
theorem item_status_invariant
    (db : DB) (now : Nat) (ident : Option Int) (cdata : Option CreateClaimData)
    (idata : Option ReportItemData) (pi : List (Option UFile)) (pv : Option UFile)
    (claim_id : Nat) (stIn vdIn : Option String)
    (hinv : itemStatusOK db) :
    ((create_claim db now ident cdata pi pv).db.lost_items = db.lost_items ∧
      (create_claim db now ident cdata pi pv).db.found_items = db.found_items) ∧
    ((report_lost_item db now ident idata pi pv).db.found_items = db.found_items ∧
      ∃ newL, (report_lost_item db now ident idata pi pv).db.lost_items =
          db.lost_items ++ newL ∧ ∀ it2 ∈ newL, it2.status = "pending") ∧
    ((report_found_item db now ident idata pi pv).db.lost_items = db.lost_items ∧
      ∃ newF, (report_found_item db now ident idata pi pv).db.found_items =
          db.found_items ++ newF ∧ ∀ it2 ∈ newF, it2.status = "available") ∧
    itemStatusOK (create_claim db now ident cdata pi pv).db ∧
    itemStatusOK (verify_claim db now claim_id ident stIn vdIn).db ∧
    itemStatusOK (report_lost_item db now ident idata pi pv).db ∧
    itemStatusOK (report_found_item db now ident idata pi pv).db := by
  have HC : (create_claim db now ident cdata pi pv).db.lost_items = db.lost_items ∧
      (create_claim db now ident cdata pi pv).db.found_items = db.found_items := by
    unfold create_claim
    dsimp only
    repeat' split
    all_goals exact ⟨rfl, rfl⟩
  have HL : (report_lost_item db now ident idata pi pv).db.found_items = db.found_items ∧
      ∃ newL, (report_lost_item db now ident idata pi pv).db.lost_items =
          db.lost_items ++ newL ∧ ∀ it2 ∈ newL, it2.status = "pending" := by
    unfold report_lost_item
    dsimp only
    repeat' split
    all_goals first
      | (refine ⟨rfl, ⟨[], ?_, ?_⟩⟩
         · simp
         · simp)
      | exact ⟨(commit_lost_item_items db now _ _ _ _).1,
          (commit_lost_item_items db now _ _ _ _).2⟩
  have HF : (report_found_item db now ident idata pi pv).db.lost_items = db.lost_items ∧
      ∃ newF, (report_found_item db now ident idata pi pv).db.found_items =
          db.found_items ++ newF ∧ ∀ it2 ∈ newF, it2.status = "available" := by
    unfold report_found_item
    dsimp only
    repeat' split
    all_goals first
      | (refine ⟨rfl, ⟨[], ?_, ?_⟩⟩
         · simp
         · simp)
      | exact ⟨(commit_found_item_items db now _ _ _ _).1,
          (commit_found_item_items db now _ _ _ _).2⟩
  refine ⟨HC, HL, HF, ?_, ?_, ?_, ?_⟩
  · refine ⟨?_, ?_⟩
    · rw [HC.1]
      exact hinv.1
    · rw [HC.2]
      exact hinv.2
  · by_cases g1 : (!(validate_integer (some (claim_id : Int)) "Claim ID"
        (some 1) none true).1) = true
    · simp only [verify_claim, g1, if_true]
      exact hinv
    · cases ident with
      | none =>
        simp only [verify_claim, if_neg g1]
        exact hinv
      | some aid =>
        cases hu : db.getUser aid with
        | none =>
          simp only [verify_claim, if_neg g1, hu]
          exact hinv
        | some admin_user =>
          by_cases g2 : (admin_user.role != "admin") = true
          · simp only [verify_claim, if_neg g1, hu, g2, if_true]
            exact hinv
          · cases hc : db.getClaim claim_id with
            | none =>
              simp only [verify_claim, if_neg g1, hu, if_neg g2, hc]
              exact hinv
            | some claim =>
              by_cases g3 : (!(validate_enum (sanitize_input stIn) "Status"
                  ["verified", "returned", "rejected"] true).1) = true
              · simp only [verify_claim, if_neg g1, hu, if_neg g2, hc, g3, if_true]
                exact hinv
              · by_cases g4 : (((sanitize_input stIn).getD "" == claim.status)) = true
                · simp only [verify_claim, if_neg g1, hu, if_neg g2, hc, if_neg g3, g4,
                    if_true]
                  exact hinv
                · by_cases g5 : (!(allowed_transitions claim.status).contains
                      ((sanitize_input stIn).getD "")) = true
                  · simp only [verify_claim, if_neg g1, hu, if_neg g2, hc, if_neg g3,
                      if_neg g4, g5, if_true]
                    exact hinv
                  · by_cases g6 : (!(if strTruthy (sanitize_input vdIn) then
                        validate_string_field (sanitize_input vdIn)
                          "Verification Details" 1 2000 false
                      else (true, none)).1) = true
                    · simp only [verify_claim, if_neg g1, hu, if_neg g2, hc, if_neg g3,
                        if_neg g4, if_neg g5, g6, if_true]
                      exact hinv
                    · simp only [verify_claim, if_neg g1, hu, if_neg g2, hc, if_neg g3,
                        if_neg g4, if_neg g5, if_neg g6]
                      exact itemStatusOK_db2 db _ now _ hinv
  · obtain ⟨newL, hl, hall⟩ := HL.2
    refine ⟨?_, ?_⟩
    · rw [hl]
      intro it hit
      rcases List.mem_append.mp hit with h | h
      · exact hinv.1 it h
      · rw [hall it h]
        simp
    · rw [HL.1]
      exact hinv.2
  · obtain ⟨newF, hf, hall⟩ := HF.2
    refine ⟨?_, ?_⟩
    · rw [HF.1]
      exact hinv.1
    · rw [hf]
      intro it hit
      rcases List.mem_append.mp hit with h | h
      · exact hinv.2 it h
      · rw [hall it h]
        simp
  
/-- Witness for the item-status theorem: the fixture store satisfies the
invariant and still does after a verify call. -/
theorem item_status_invariant_witness :
    itemStatusOK (verify_claim dbW 5 7 (some 1) (some "verified") none).db := by
  exact (item_status_invariant dbW 5 (some 1) none none [] none 7 (some "verified") none
    ⟨by decide, by decide⟩).2.2.2.2.1

end LostFound
